import Mathlib

/-!
# Verification of the NautilusTrader core runtime substrate

A shallow embedding, in Lean 4, of the core runtime pieces of the
NautilusTrader repository:

* the message-bus wildcard topic matcher (`msgbus_is_matching`),
* the component lifecycle state machine (`ComponentState` / `ComponentTrigger`),
* the deterministic test clock (`test_clock_advance_time`),
* the `ExecutionClient` event-generation contract
  (`nautilus_trader/execution/client.pyx`).

Machine integers are embedded as `Nat` / `Int` with explicit range
predicates where the width matters (`int64Ok` for C `int64_t` parameters).
Fallible code is embedded with `Except String`.  Fresh `UUID4` values are
modelled by a per-client supply counter (`uuid_next`), so that two
successively drawn ids are distinct by construction.
-/

namespace Nautilus

/-! ## Message-bus wildcard matching

The repository only ships the FFI declaration of `msgbus_is_matching`
together with its documentation (`?` matches a single character; `*`
matches any number of characters including zero; `comp*` matches `comp`,
`complete` and `computer`).  The matcher below is modelled from that
documentation and from spec §4.2.
-/

/-- Modelled from the spec: the anchored glob match of `msgbus_is_matching`
(the Rust implementation is not part of the provided sources; this follows
spec §4.2 and the cbindgen header documentation of `MessageBus`):
`?` matches exactly one character, `*` matches zero or more characters,
every other character matches itself, and the whole topic must be consumed. -/
def isMatchingChars (topic pattern : List Char) : Bool :=
  match pattern with
  | [] => topic.isEmpty
  | p :: ps =>
    if p = '?' then
      match topic with
      | [] => false
      | _ :: ts => isMatchingChars ts ps
    else if p = '*' then
      (isMatchingChars topic ps) ||
      (match topic with
       | [] => false
       | _ :: ts => isMatchingChars ts (p :: ps))
    else
      match topic with
      | [] => false
      | t :: ts => t = p && isMatchingChars ts ps
termination_by (pattern.length, topic.length)

/-- The FFI-level matcher: anchored match of `pattern` against `topic`. -/
def msgbus_is_matching (topic pattern : String) : Bool :=
  isMatchingChars topic.data pattern.data

/-- The spec's description of wildcard matching, as an inductive relation:
`GlobMatch pattern topic` holds exactly when the anchored match succeeds,
with `?` consuming exactly one character and `*` consuming zero or more. -/
inductive GlobMatch : List Char → List Char → Prop
  | nil : GlobMatch [] []
  | one {p t : List Char} (c : Char) : GlobMatch p t → GlobMatch ('?' :: p) (c :: t)
  | lit {p t : List Char} (c : Char) : c ≠ '?' → c ≠ '*' →
      GlobMatch p t → GlobMatch (c :: p) (c :: t)
  | starEmpty {p t : List Char} : GlobMatch p t → GlobMatch ('*' :: p) t
  | starCons {p t : List Char} (c : Char) : GlobMatch ('*' :: p) t → GlobMatch ('*' :: p) (c :: t)

/-! ## Component lifecycle state machine

The two enums are embedded from the cbindgen header in the sources
(`ComponentState`, `ComponentTrigger`; constructor names are lowered to
Lean-friendly camel case: `preInit` is the source's pre-initialized state
and `trInit` the source's first trigger).  The transition function itself
lives in the Rust `common` crate, which is not part of the provided
sources, so it is modelled from the spec's table (§4.3).
-/

/-- The state of a component within the system (source enum, values 0–13). -/
inductive ComponentState
  | preInit
  | ready
  | starting
  | running
  | stopping
  | stopped
  | resuming
  | resetting
  | disposing
  | disposed
  | degrading
  | degraded
  | faulting
  | faulted
deriving DecidableEq, Fintype

/-- A trigger condition for a component within the system (source enum,
values 1–15). -/
inductive ComponentTrigger
  | trInit
  | trStart
  | trStartCompleted
  | trStop
  | trStopCompleted
  | trResume
  | trResumeCompleted
  | trReset
  | trResetCompleted
  | trDispose
  | trDisposeCompleted
  | trDegrade
  | trDegradeCompleted
  | trFault
  | trFaultCompleted
deriving DecidableEq, Fintype

/-- Terminal states of the lifecycle (spec §4.3). -/
def ComponentState.isTerminal : ComponentState → Bool
  | .disposed => true
  | .faulted => true
  | _ => false

/-- Modelled from the spec: the lifecycle transition table of §4.3 (the Rust
implementation is not part of the provided sources).  `none` is a raised
error; `DISPOSE` and `FAULT` are available from every non-terminal state;
terminal states have no outgoing transitions. -/
def componentTransition (s : ComponentState) (t : ComponentTrigger) : Option ComponentState :=
  match t with
  | .trInit => if s = .preInit then some .ready else none
  | .trStart => if s = .ready then some .starting else none
  | .trStartCompleted => if s = .starting then some .running else none
  | .trStop => if s = .running then some .stopping else none
  | .trStopCompleted => if s = .stopping then some .stopped else none
  | .trResume => if s = .stopped then some .resuming else none
  | .trResumeCompleted => if s = .resuming then some .running else none
  | .trReset => if s = .stopped ∨ s = .degraded then some .resetting else none
  | .trResetCompleted => if s = .resetting then some .ready else none
  | .trDispose => if s.isTerminal then none else some .disposing
  | .trDisposeCompleted => if s = .disposing then some .disposed else none
  | .trDegrade => if s = .running then some .degrading else none
  | .trDegradeCompleted => if s = .degrading then some .degraded else none
  | .trFault => if s.isTerminal then none else some .faulting
  | .trFaultCompleted => if s = .faulting then some .faulted else none

/-- A component step: applying a trigger either moves to the new state, or
raises (second component `true`) leaving the state unchanged. -/
def componentStep (s : ComponentState) (t : ComponentTrigger) : ComponentState × Bool :=
  match componentTransition s t with
  | some s2 => (s2, false)
  | none => (s, true)

/-- The rows of the spec's transition table (§4.3), as a relation on
`(from, trigger, to)`. -/
def specTableRow (s : ComponentState) (t : ComponentTrigger) (s2 : ComponentState) : Prop :=
  (s = .preInit ∧ t = .trInit ∧ s2 = .ready) ∨
  (s = .ready ∧ t = .trStart ∧ s2 = .starting) ∨
  (s = .starting ∧ t = .trStartCompleted ∧ s2 = .running) ∨
  (s = .running ∧ t = .trStop ∧ s2 = .stopping) ∨
  (s = .stopping ∧ t = .trStopCompleted ∧ s2 = .stopped) ∨
  (s = .stopped ∧ t = .trResume ∧ s2 = .resuming) ∨
  (s = .resuming ∧ t = .trResumeCompleted ∧ s2 = .running) ∨
  ((s = .stopped ∨ s = .degraded) ∧ t = .trReset ∧ s2 = .resetting) ∨
  (s = .resetting ∧ t = .trResetCompleted ∧ s2 = .ready) ∨
  (s.isTerminal = false ∧ t = .trDispose ∧ s2 = .disposing) ∨
  (s = .disposing ∧ t = .trDisposeCompleted ∧ s2 = .disposed) ∨
  (s = .running ∧ t = .trDegrade ∧ s2 = .degrading) ∨
  (s = .degrading ∧ t = .trDegradeCompleted ∧ s2 = .degraded) ∨
  (s.isTerminal = false ∧ t = .trFault ∧ s2 = .faulting) ∨
  (s = .faulting ∧ t = .trFaultCompleted ∧ s2 = .faulted)

instance (s : ComponentState) (t : ComponentTrigger) (s2 : ComponentState) :
    Decidable (specTableRow s t s2) := by
  unfold specTableRow; infer_instance

/-! ## TestClock

The sources ship only the FFI declaration
`CVec test_clock_advance_time(TestClock_API*, uint64_t, uint8_t)`; the
Rust `TestClock` itself is not among the provided files, so the model
below follows the spec (§4.1): one registry of named timers and one-shot
alerts, `advance_time` collecting every firing in `(current, to_ns]` in
ascending `ts_event` order with ties broken by registration order.
-/

/-- A registered timer: either a one-shot alert or a recurring timer
(spec §3: `interval_ns > 0`; `stop_time_ns = 0` means open-ended). -/
inductive TimerKind
  | alert (alert_time_ns : Nat)
  | periodic (interval_ns start_time_ns stop_time_ns : Nat)
deriving DecidableEq

/-- The validity invariant for a registered timer: a recurring timer has a
strictly positive interval (enforced at registration per spec §4.1). -/
def TimerKind.intervalPos : TimerKind → Bool
  | .alert _ => true
  | .periodic iv _ _ => decide (0 < iv)

structure TimerModel where
  name : String
  kind : TimerKind
deriving DecidableEq

/-- Modelled from the spec: the observable state of the Rust `TestClock`
(current time plus the timer registry in registration order). -/
structure TestClockModel where
  time_ns : Nat
  timers : List TimerModel
deriving DecidableEq

/-- A time event as in the `TimeEvent_t` FFI struct (`event_id` and
`ts_init` are irrelevant to the claims settled here and are omitted). -/
structure TimeEventModel where
  name : String
  ts_event : Nat
deriving DecidableEq

/-- The firing times of one timer inside the half-open interval `(t0, t1]`:
an alert fires at its alert time; a recurring timer started at `s` fires at
`s + j·interval` for `j ≥ 1`, up to its stop time when that is nonzero. -/
def TimerKind.fireTimes (k : TimerKind) (t0 t1 : Nat) : List Nat :=
  match k with
  | .alert a => if t0 < a ∧ a ≤ t1 then [a] else []
  | .periodic iv start stop =>
      ((List.range ((t1 - start) / iv + 1)).map (fun j => start + (j + 1) * iv)).filter
        (fun time => decide (t0 < time) && decide (time ≤ t1) &&
          (decide (stop = 0) || decide (time ≤ stop)))

/-- The declarative counterpart of `TimerKind.fireTimes`: `time` is a due
firing of the timer in `(t0, t1]`. -/
def TimerKind.dueAt (k : TimerKind) (t0 t1 time : Nat) : Prop :=
  match k with
  | .alert a => time = a ∧ t0 < time ∧ time ≤ t1
  | .periodic iv start stop =>
      (∃ j, 1 ≤ j ∧ time = start + j * iv) ∧ t0 < time ∧ time ≤ t1 ∧
        (stop = 0 ∨ time ≤ stop)

/-- The total order used to deliver events: ascending `ts_event`, ties
broken by ascending registration index. -/
def eventLE (a b : Nat × TimeEventModel) : Bool :=
  decide (a.2.ts_event < b.2.ts_event) ||
  (decide (a.2.ts_event = b.2.ts_event) && decide (a.1 ≤ b.1))

/-- Modelled from the spec: `test_clock_advance_time(clock, to_ns, set_time)`.
Returns every timer/alert firing in `(current, to_ns]`, tagged with the
timer's registration index, in ascending `ts_event` order with ties broken
by registration order; alerts that fired are removed; the current time
becomes `to_ns` exactly when `set_time` is true. -/
def test_clock_advance_time (clock : TestClockModel) (to_ns : Nat) (set_time : Bool) :
    List (Nat × TimeEventModel) × TestClockModel :=
  let fired := clock.timers.enum.flatMap
    (fun p => (p.2.kind.fireTimes clock.time_ns to_ns).map
      (fun time => (p.1, TimeEventModel.mk p.2.name time)))
  let events := fired.mergeSort eventLE
  let remaining := clock.timers.filter (fun tm =>
    match tm.kind with
    | .alert a => !(decide (clock.time_ns < a) && decide (a ≤ to_ns))
    | .periodic _ _ _ => true)
  (events, { time_ns := if set_time then to_ns else clock.time_ns, timers := remaining })

/-! ## ExecutionClient (`nautilus_trader/execution/client.pyx`)

Identifier value types are string-backed (spec §3).  `AccountId` is
modelled from the spec's grammar `<ISSUER>-<ID>` as its two components,
with `issuer` the source's `issuer` sub-field.  Value-object payload types
(`Quantity`, `Price`, `Money`, …) are opaque wrappers: no claim touches
their arithmetic.  A `UUID4` drawn by a generator is modelled by the
client's supply counter `uuid_next`, so successive draws are distinct.
The Cython `int64_t ts_event` parameters are embedded as `Int` guarded by
`int64Ok` (the conversion at the call boundary raises `OverflowError`
outside that range).  Every `msgbus.send` is recorded in `sent_log`.
-/

structure TraderId where
  value : String
deriving DecidableEq

structure ClientId where
  value : String
deriving DecidableEq

structure StrategyId where
  value : String
deriving DecidableEq

structure InstrumentId where
  value : String
deriving DecidableEq

structure ClientOrderId where
  value : String
deriving DecidableEq

structure VenueOrderId where
  value : String
deriving DecidableEq

structure PositionId where
  value : String
deriving DecidableEq

structure TradeId where
  value : String
deriving DecidableEq

structure Venue where
  value : String
deriving DecidableEq

/-- Modelled from the spec: `AccountId` has the form `<ISSUER>-<ID>` and
`issuer` returns the prefixed component (the identifiers module is not in
the provided sources). -/
structure AccountId where
  issuer : String
  number : String
deriving DecidableEq

def AccountId.value (a : AccountId) : String := a.issuer ++ "-" ++ a.number

inductive OMSType
  | NONE
  | HEDGING
  | NETTING
deriving DecidableEq

/-- Account types; the concrete constructors are immaterial to the claims. -/
inductive AccountType
  | CASH
  | MARGIN
  | BETTING
deriving DecidableEq

inductive OrderSide
  | BUY
  | SELL
deriving DecidableEq

inductive OrderType
  | MARKET
  | LIMIT
deriving DecidableEq

inductive LiquiditySide
  | NONE
  | MAKER
  | TAKER
deriving DecidableEq

structure Currency where
  code : String
deriving DecidableEq

structure Quantity where
  value : Int
deriving DecidableEq

structure Price where
  value : Int
deriving DecidableEq

structure Money where
  amount : Int
  currency : Currency
deriving DecidableEq

structure AccountBalance where
  total : Money
  locked : Money
  free : Money
deriving DecidableEq

structure MarginBalance where
  initial : Money
  maintenance : Money
deriving DecidableEq

/-- Opaque payload of an `ExecutionMassStatus` report. -/
structure ExecutionMassStatus where
  payload : String
deriving DecidableEq

/-- Opaque payload of an `OrderStatusReport`. -/
structure OrderStatusReport where
  payload : String
deriving DecidableEq

/-- Opaque payload of a `TradeReport`. -/
structure TradeReport where
  payload : String
deriving DecidableEq

/-- The common header of every order lifecycle event
(`trader_id, strategy_id, account_id, instrument_id, client_order_id,
event_id, ts_event, ts_init`).  `event_id` is the index drawn from the
client's UUID supply; `ts_event` is the caller's `int64_t` value;
`ts_init` is the `uint64_t` clock reading. -/
structure OrderEventFields where
  trader_id : TraderId
  strategy_id : StrategyId
  account_id : Option AccountId
  instrument_id : InstrumentId
  client_order_id : ClientOrderId
  event_id : Nat
  ts_event : Int
  ts_init : Nat
deriving DecidableEq

/-- The order lifecycle event variants constructed by
`ExecutionClient.generate_*` in `client.pyx`. -/
inductive OrderEventModel
  | submitted (f : OrderEventFields)
  | rejected (f : OrderEventFields) (reason : String)
  | accepted (f : OrderEventFields) (venue_order_id : VenueOrderId)
  | pendingUpdate (f : OrderEventFields) (venue_order_id : VenueOrderId)
  | pendingCancel (f : OrderEventFields) (venue_order_id : VenueOrderId)
  | modifyRejected (f : OrderEventFields) (venue_order_id : VenueOrderId) (reason : String)
  | cancelRejected (f : OrderEventFields) (venue_order_id : VenueOrderId) (reason : String)
  | updated (f : OrderEventFields) (venue_order_id : VenueOrderId)
      (quantity : Quantity) (price : Price) (trigger_price : Option Price)
  | canceled (f : OrderEventFields) (venue_order_id : VenueOrderId)
  | triggered (f : OrderEventFields) (venue_order_id : VenueOrderId)
  | expired (f : OrderEventFields) (venue_order_id : VenueOrderId)
  | filled (f : OrderEventFields) (venue_order_id : VenueOrderId) (trade_id : TradeId)
      (position_id : Option PositionId) (order_side : OrderSide) (order_type : OrderType)
      (last_qty : Quantity) (last_px : Price) (currency : Currency) (commission : Money)
      (liquidity_side : LiquiditySide)
deriving DecidableEq

/-- The common header of an order event. -/
def OrderEventModel.fields : OrderEventModel → OrderEventFields
  | .submitted f => f
  | .rejected f _ => f
  | .accepted f _ => f
  | .pendingUpdate f _ => f
  | .pendingCancel f _ => f
  | .modifyRejected f _ _ => f
  | .cancelRejected f _ _ => f
  | .updated f _ _ _ _ => f
  | .canceled f _ => f
  | .triggered f _ => f
  | .expired f _ => f
  | .filled f _ _ _ _ _ _ _ _ _ _ => f

/-- The `AccountState` event (`generate_account_state`). -/
structure AccountStateModel where
  account_id : Option AccountId
  account_type : AccountType
  base_currency : Option Currency
  reported : Bool
  balances : List AccountBalance
  margins : List MarginBalance
  info : List (String × String)
  event_id : Nat
  ts_event : Int
  ts_init : Nat
deriving DecidableEq

/-- A message routed through `msgbus.send`. -/
inductive BusMsg
  | account (s : AccountStateModel)
  | order (e : OrderEventModel)
  | massStatus (r : ExecutionMassStatus)
  | statusReport (r : OrderStatusReport)
  | tradeReport (r : TradeReport)
deriving DecidableEq

/-- One point-to-point delivery performed by the client. -/
structure Sent where
  endpoint : String
  msg : BusMsg
deriving DecidableEq

/-- The `event_id`, `ts_event` and `ts_init` of an event message
(reports carry no such header). -/
def BusMsg.eventMeta : BusMsg → Option (Nat × Int × Nat)
  | .account a => some (a.event_id, a.ts_event, a.ts_init)
  | .order e => some (e.fields.event_id, e.fields.ts_event, e.fields.ts_init)
  | _ => none

/-- The `account_id` field carried by an event message. -/
def BusMsg.accountIdOf : BusMsg → Option (Option AccountId)
  | .account a => some a.account_id
  | .order e => some e.fields.account_id
  | _ => none

/-- The observable state of an `ExecutionClient` (`client.pyx`): identity
fields from `__init__`, the venue-order-id view of the cache, the clock
reading, the UUID supply, and the log of `msgbus.send` calls. -/
structure ExecClientState where
  client_id : ClientId
  trader_id : TraderId
  msgbus_trader_id : TraderId
  venue : Option Venue
  oms_type : OMSType
  account_type : AccountType
  base_currency : Option Currency
  account_id : Option AccountId
  is_connected : Bool
  cache : ClientOrderId → Option VenueOrderId
  clock_now : Nat
  uuid_next : Nat
  sent_log : List Sent

/-- The value range of a C `int64_t`: the Cython call boundary accepts a
Python int for an `int64_t` parameter exactly when it lies in
`[-2^63, 2^63)`, raising `OverflowError` otherwise. -/
def int64Ok (n : Int) : Bool := decide (-(2 ^ 63) ≤ n) && decide (n < 2 ^ 63)

/-- `ExecutionClient.__init__`: validates `oms_type != OMSType.NONE`,
takes `trader_id` from `msgbus.trader_id`, starts with `account_id = None`
and `is_connected = False`, and sends nothing. -/
def ExecutionClient_init (client_id : ClientId) (venue : Option Venue)
    (oms_type : OMSType) (account_type : AccountType) (base_currency : Option Currency)
    (msgbus_trader_id : TraderId) (cache : ClientOrderId → Option VenueOrderId)
    (clock_now : Nat) : Except String ExecClientState :=
  if oms_type = OMSType.NONE then
    Except.error "Condition.not_equal: oms_type, OMSType"
  else
    Except.ok
      { client_id := client_id
        trader_id := msgbus_trader_id
        msgbus_trader_id := msgbus_trader_id
        venue := venue
        oms_type := oms_type
        account_type := account_type
        base_currency := base_currency
        account_id := none
        is_connected := false
        cache := cache
        clock_now := clock_now
        uuid_next := 0
        sent_log := [] }

/-- `ExecutionClient._set_connected`. -/
def set_connected (st : ExecClientState) (value : Bool := true) : ExecClientState :=
  { st with is_connected := value }

/-- `ExecutionClient._set_account_id`: requires `id.value == account_id.issuer`
(`Condition.equal`), then stores the account id. -/
def set_account_id (st : ExecClientState) (account_id : AccountId) :
    Except String ExecClientState :=
  if st.client_id.value = account_id.issuer then
    Except.ok { st with account_id := some account_id }
  else
    Except.error "Condition.equal: id.value, account_id.issuer"

/-- `ExecutionClient._send_account_state`: routes to endpoint
`Portfolio.update_account`. -/
def send_account_state (st : ExecClientState) (account_state : AccountStateModel) :
    ExecClientState :=
  { st with sent_log := st.sent_log ++ [⟨"Portfolio.update_account", BusMsg.account account_state⟩] }

/-- `ExecutionClient._send_order_event`: routes to endpoint
`ExecEngine.process`. -/
def send_order_event (st : ExecClientState) (event : OrderEventModel) : ExecClientState :=
  { st with sent_log := st.sent_log ++ [⟨"ExecEngine.process", BusMsg.order event⟩] }

/-- `ExecutionClient._send_mass_status_report`: routes to endpoint
`ExecEngine.reconcile_mass_status`. -/
def send_mass_status_report (st : ExecClientState) (report : ExecutionMassStatus) :
    ExecClientState :=
  { st with sent_log := st.sent_log ++ [⟨"ExecEngine.reconcile_mass_status", BusMsg.massStatus report⟩] }

/-- `ExecutionClient._send_order_status_report`: routes to endpoint
`ExecEngine.reconcile_report`. -/
def send_order_status_report (st : ExecClientState) (report : OrderStatusReport) :
    ExecClientState :=
  { st with sent_log := st.sent_log ++ [⟨"ExecEngine.reconcile_report", BusMsg.statusReport report⟩] }

/-- `ExecutionClient._send_trade_report`: routes to endpoint
`ExecEngine.reconcile_report`. -/
def send_trade_report (st : ExecClientState) (report : TradeReport) : ExecClientState :=
  { st with sent_log := st.sent_log ++ [⟨"ExecEngine.reconcile_report", BusMsg.tradeReport report⟩] }

/-- `generate_account_state`: builds an `AccountState` with a fresh
`event_id`, caller `ts_event`, `ts_init = clock.timestamp_ns()`, and
routes it via `_send_account_state`. -/
def generate_account_state (st : ExecClientState) (balances : List AccountBalance)
    (margins : List MarginBalance) (reported : Bool) (ts_event : Int)
    (info : List (String × String) := []) : Except String ExecClientState :=
  if int64Ok ts_event then
    Except.ok (send_account_state { st with uuid_next := st.uuid_next + 1 }
      { account_id := st.account_id
        account_type := st.account_type
        base_currency := st.base_currency
        reported := reported
        balances := balances
        margins := margins
        info := info
        event_id := st.uuid_next
        ts_event := ts_event
        ts_init := st.clock_now })
  else Except.error "OverflowError: ts_event"

/-- `generate_order_submitted` (note: the source takes `trader_id` from
`self._msgbus.trader_id` here, unlike the other generators). -/
def generate_order_submitted (st : ExecClientState) (strategy_id : StrategyId)
    (instrument_id : InstrumentId) (client_order_id : ClientOrderId) (ts_event : Int) :
    Except String ExecClientState :=
  if int64Ok ts_event then
    Except.ok (send_order_event { st with uuid_next := st.uuid_next + 1 }
      (OrderEventModel.submitted
        { trader_id := st.msgbus_trader_id
          strategy_id := strategy_id
          account_id := st.account_id
          instrument_id := instrument_id
          client_order_id := client_order_id
          event_id := st.uuid_next
          ts_event := ts_event
          ts_init := st.clock_now }))
  else Except.error "OverflowError: ts_event"

/-- `generate_order_rejected`. -/
def generate_order_rejected (st : ExecClientState) (strategy_id : StrategyId)
    (instrument_id : InstrumentId) (client_order_id : ClientOrderId) (reason : String)
    (ts_event : Int) : Except String ExecClientState :=
  if int64Ok ts_event then
    Except.ok (send_order_event { st with uuid_next := st.uuid_next + 1 }
      (OrderEventModel.rejected
        { trader_id := st.trader_id
          strategy_id := strategy_id
          account_id := st.account_id
          instrument_id := instrument_id
          client_order_id := client_order_id
          event_id := st.uuid_next
          ts_event := ts_event
          ts_init := st.clock_now } reason))
  else Except.error "OverflowError: ts_event"

/-- `generate_order_accepted`. -/
def generate_order_accepted (st : ExecClientState) (strategy_id : StrategyId)
    (instrument_id : InstrumentId) (client_order_id : ClientOrderId)
    (venue_order_id : VenueOrderId) (ts_event : Int) : Except String ExecClientState :=
  if int64Ok ts_event then
    Except.ok (send_order_event { st with uuid_next := st.uuid_next + 1 }
      (OrderEventModel.accepted
        { trader_id := st.trader_id
          strategy_id := strategy_id
          account_id := st.account_id
          instrument_id := instrument_id
          client_order_id := client_order_id
          event_id := st.uuid_next
          ts_event := ts_event
          ts_init := st.clock_now } venue_order_id))
  else Except.error "OverflowError: ts_event"

/-- `generate_order_pending_update`. -/
def generate_order_pending_update (st : ExecClientState) (strategy_id : StrategyId)
    (instrument_id : InstrumentId) (client_order_id : ClientOrderId)
    (venue_order_id : VenueOrderId) (ts_event : Int) : Except String ExecClientState :=
  if int64Ok ts_event then
    Except.ok (send_order_event { st with uuid_next := st.uuid_next + 1 }
      (OrderEventModel.pendingUpdate
        { trader_id := st.trader_id
          strategy_id := strategy_id
          account_id := st.account_id
          instrument_id := instrument_id
          client_order_id := client_order_id
          event_id := st.uuid_next
          ts_event := ts_event
          ts_init := st.clock_now } venue_order_id))
  else Except.error "OverflowError: ts_event"

/-- `generate_order_pending_cancel`. -/
def generate_order_pending_cancel (st : ExecClientState) (strategy_id : StrategyId)
    (instrument_id : InstrumentId) (client_order_id : ClientOrderId)
    (venue_order_id : VenueOrderId) (ts_event : Int) : Except String ExecClientState :=
  if int64Ok ts_event then
    Except.ok (send_order_event { st with uuid_next := st.uuid_next + 1 }
      (OrderEventModel.pendingCancel
        { trader_id := st.trader_id
          strategy_id := strategy_id
          account_id := st.account_id
          instrument_id := instrument_id
          client_order_id := client_order_id
          event_id := st.uuid_next
          ts_event := ts_event
          ts_init := st.clock_now } venue_order_id))
  else Except.error "OverflowError: ts_event"

/-- `generate_order_modify_rejected`. -/
def generate_order_modify_rejected (st : ExecClientState) (strategy_id : StrategyId)
    (instrument_id : InstrumentId) (client_order_id : ClientOrderId)
    (venue_order_id : VenueOrderId) (reason : String) (ts_event : Int) :
    Except String ExecClientState :=
  if int64Ok ts_event then
    Except.ok (send_order_event { st with uuid_next := st.uuid_next + 1 }
      (OrderEventModel.modifyRejected
        { trader_id := st.trader_id
          strategy_id := strategy_id
          account_id := st.account_id
          instrument_id := instrument_id
          client_order_id := client_order_id
          event_id := st.uuid_next
          ts_event := ts_event
          ts_init := st.clock_now } venue_order_id reason))
  else Except.error "OverflowError: ts_event"

/-- `generate_order_cancel_rejected`. -/
def generate_order_cancel_rejected (st : ExecClientState) (strategy_id : StrategyId)
    (instrument_id : InstrumentId) (client_order_id : ClientOrderId)
    (venue_order_id : VenueOrderId) (reason : String) (ts_event : Int) :
    Except String ExecClientState :=
  if int64Ok ts_event then
    Except.ok (send_order_event { st with uuid_next := st.uuid_next + 1 }
      (OrderEventModel.cancelRejected
        { trader_id := st.trader_id
          strategy_id := strategy_id
          account_id := st.account_id
          instrument_id := instrument_id
          client_order_id := client_order_id
          event_id := st.uuid_next
          ts_event := ts_event
          ts_init := st.clock_now } venue_order_id reason))
  else Except.error "OverflowError: ts_event"

/-- `generate_order_updated`: when `venue_order_id_modified` is false the
supplied `venue_order_id` must equal the cache's current mapping for
`client_order_id` (`Condition.equal(existing, venue_order_id)`), otherwise
the event is built and sent like every other generator. -/
def generate_order_updated (st : ExecClientState) (strategy_id : StrategyId)
    (instrument_id : InstrumentId) (client_order_id : ClientOrderId)
    (venue_order_id : VenueOrderId) (quantity : Quantity) (price : Price)
    (trigger_price : Option Price) (ts_event : Int)
    (venue_order_id_modified : Bool := false) : Except String ExecClientState :=
  if int64Ok ts_event then
    if venue_order_id_modified = true ∨ st.cache client_order_id = some venue_order_id then
      Except.ok (send_order_event { st with uuid_next := st.uuid_next + 1 }
        (OrderEventModel.updated
          { trader_id := st.trader_id
            strategy_id := strategy_id
            account_id := st.account_id
            instrument_id := instrument_id
            client_order_id := client_order_id
            event_id := st.uuid_next
            ts_event := ts_event
            ts_init := st.clock_now } venue_order_id quantity price trigger_price))
    else Except.error "Condition.equal: existing, order.venue_order_id"
  else Except.error "OverflowError: ts_event"

/-- `generate_order_canceled`. -/
def generate_order_canceled (st : ExecClientState) (strategy_id : StrategyId)
    (instrument_id : InstrumentId) (client_order_id : ClientOrderId)
    (venue_order_id : VenueOrderId) (ts_event : Int) : Except String ExecClientState :=
  if int64Ok ts_event then
    Except.ok (send_order_event { st with uuid_next := st.uuid_next + 1 }
      (OrderEventModel.canceled
        { trader_id := st.trader_id
          strategy_id := strategy_id
          account_id := st.account_id
          instrument_id := instrument_id
          client_order_id := client_order_id
          event_id := st.uuid_next
          ts_event := ts_event
          ts_init := st.clock_now } venue_order_id))
  else Except.error "OverflowError: ts_event"

/-- `generate_order_triggered`. -/
def generate_order_triggered (st : ExecClientState) (strategy_id : StrategyId)
    (instrument_id : InstrumentId) (client_order_id : ClientOrderId)
    (venue_order_id : VenueOrderId) (ts_event : Int) : Except String ExecClientState :=
  if int64Ok ts_event then
    Except.ok (send_order_event { st with uuid_next := st.uuid_next + 1 }
      (OrderEventModel.triggered
        { trader_id := st.trader_id
          strategy_id := strategy_id
          account_id := st.account_id
          instrument_id := instrument_id
          client_order_id := client_order_id
          event_id := st.uuid_next
          ts_event := ts_event
          ts_init := st.clock_now } venue_order_id))
  else Except.error "OverflowError: ts_event"

/-- `generate_order_expired`. -/
def generate_order_expired (st : ExecClientState) (strategy_id : StrategyId)
    (instrument_id : InstrumentId) (client_order_id : ClientOrderId)
    (venue_order_id : VenueOrderId) (ts_event : Int) : Except String ExecClientState :=
  if int64Ok ts_event then
    Except.ok (send_order_event { st with uuid_next := st.uuid_next + 1 }
      (OrderEventModel.expired
        { trader_id := st.trader_id
          strategy_id := strategy_id
          account_id := st.account_id
          instrument_id := instrument_id
          client_order_id := client_order_id
          event_id := st.uuid_next
          ts_event := ts_event
          ts_init := st.clock_now } venue_order_id))
  else Except.error "OverflowError: ts_event"

/-- `generate_order_filled`. -/
def generate_order_filled (st : ExecClientState) (strategy_id : StrategyId)
    (instrument_id : InstrumentId) (client_order_id : ClientOrderId)
    (venue_order_id : VenueOrderId) (venue_position_id : Option PositionId)
    (trade_id : TradeId) (order_side : OrderSide) (order_type : OrderType)
    (last_qty : Quantity) (last_px : Price) (quote_currency : Currency)
    (commission : Money) (liquidity_side : LiquiditySide) (ts_event : Int) :
    Except String ExecClientState :=
  if int64Ok ts_event then
    Except.ok (send_order_event { st with uuid_next := st.uuid_next + 1 }
      (OrderEventModel.filled
        { trader_id := st.trader_id
          strategy_id := strategy_id
          account_id := st.account_id
          instrument_id := instrument_id
          client_order_id := client_order_id
          event_id := st.uuid_next
          ts_event := ts_event
          ts_init := st.clock_now } venue_order_id trade_id venue_position_id order_side
        order_type last_qty last_px quote_currency commission liquidity_side))
  else Except.error "OverflowError: ts_event"


/-- A concrete cache view mapping every client order id to venue order id
`V-001` (used to evaluate the theorems below at concrete inputs). -/
def sampleCache : ClientOrderId → Option VenueOrderId :=
  fun _ => some (VenueOrderId.mk "V-001")

/-- A concrete freshly-constructed client (client id `SIM`, clock at 100),
used to evaluate the theorems below at concrete inputs. -/
def sampleState : ExecClientState where
  client_id := ClientId.mk "SIM"
  trader_id := TraderId.mk "TRADER-001"
  msgbus_trader_id := TraderId.mk "TRADER-001"
  venue := none
  oms_type := OMSType.HEDGING
  account_type := AccountType.MARGIN
  base_currency := none
  account_id := none
  is_connected := false
  cache := sampleCache
  clock_now := 100
  uuid_next := 0
  sent_log := []

/-! ## Theorems -/

lemma globMatch_nil_iff (t : List Char) : GlobMatch [] t ↔ t = [] := by
  constructor
  · intro h; cases h; rfl
  · rintro rfl; exact GlobMatch.nil

lemma globMatch_question_iff (ps t : List Char) :
    GlobMatch ('?' :: ps) t ↔ ∃ c ts, t = c :: ts ∧ GlobMatch ps ts := by
  constructor
  · intro h
    cases h with
    | one c h => exact ⟨c, _, rfl, h⟩
    | lit c hq hs h => exact absurd rfl hq
  · rintro ⟨c, ts, rfl, h⟩; exact GlobMatch.one c h

lemma globMatch_star_iff (ps t : List Char) :
    GlobMatch ('*' :: ps) t ↔
      GlobMatch ps t ∨ ∃ c ts, t = c :: ts ∧ GlobMatch ('*' :: ps) ts := by
  constructor
  · intro h
    cases h with
    | lit c hq hs h => exact absurd rfl hs
    | starEmpty h => exact Or.inl h
    | starCons c h => exact Or.inr ⟨c, _, rfl, h⟩
  · rintro (h | ⟨c, ts, rfl, h⟩)
    · exact GlobMatch.starEmpty h
    · exact GlobMatch.starCons c h

lemma globMatch_lit_iff (c : Char) (ps t : List Char) (hq : c ≠ '?') (hs : c ≠ '*') :
    GlobMatch (c :: ps) t ↔ ∃ ts, t = c :: ts ∧ GlobMatch ps ts := by
  constructor
  · intro h
    cases h with
    | one c h => exact absurd rfl hq
    | lit c hq2 hs2 h => exact ⟨_, rfl, h⟩
    | starEmpty h => exact absurd rfl hs
    | starCons c h => exact absurd rfl hs
  · rintro ⟨ts, rfl, h⟩; exact GlobMatch.lit c hq hs h

/-- The executable matcher agrees with the spec's relational semantics. -/
lemma isMatchingChars_iff_globMatch :
    ∀ n (p t : List Char), p.length + t.length ≤ n →
      (isMatchingChars t p = true ↔ GlobMatch p t) := by
  intro n
  induction n with
  | zero =>
    intro p t hle
    have hp : p = [] := by
      cases p with
      | nil => rfl
      | cons a as => simp at hle
    have ht : t = [] := by
      cases t with
      | nil => rfl
      | cons a as => cases p <;> simp at hle
    subst hp; subst ht
    simp [isMatchingChars, globMatch_nil_iff]
  | succ n ih =>
    intro p t hle
    match p with
    | [] =>
      simp [isMatchingChars, globMatch_nil_iff, List.isEmpty_iff]
    | pc :: ps =>
      by_cases hq : pc = '?'
      · subst hq
        rw [globMatch_question_iff]
        match t with
        | [] => simp [isMatchingChars]
        | tc :: ts =>
          rw [show isMatchingChars (tc :: ts) ('?' :: ps) = isMatchingChars ts ps from by
            rw [isMatchingChars]; simp]
          rw [ih ps ts (by simp at hle ⊢; omega)]
          constructor
          · intro h; exact ⟨tc, ts, rfl, h⟩
          · rintro ⟨c, ts2, heq, h⟩
            cases heq; exact h
      · by_cases hs : pc = '*'
        · subst hs
          rw [globMatch_star_iff]
          match t with
          | [] =>
            rw [show isMatchingChars ([] : List Char) ('*' :: ps) =
                isMatchingChars [] ps from by rw [isMatchingChars]; simp [hq]]
            rw [ih ps [] (by simp at hle ⊢; omega)]
            simp
          | tc :: ts =>
            rw [show isMatchingChars (tc :: ts) ('*' :: ps) =
                (isMatchingChars (tc :: ts) ps || isMatchingChars ts ('*' :: ps)) from by
              rw [isMatchingChars]; simp [hq]]
            simp only [Bool.or_eq_true]
            rw [ih ps (tc :: ts) (by simp at hle ⊢; omega)]
            rw [ih ('*' :: ps) ts (by simp at hle ⊢; omega)]
            constructor
            · rintro (h | h)
              · exact Or.inl h
              · exact Or.inr ⟨tc, ts, rfl, h⟩
            · rintro (h | ⟨c, ts2, heq, h⟩)
              · exact Or.inl h
              · cases heq; exact Or.inr h
        · rw [globMatch_lit_iff pc ps t hq hs]
          match t with
          | [] =>
            rw [show isMatchingChars ([] : List Char) (pc :: ps) = false from by
              rw [isMatchingChars]; simp [hq, hs]]
            simp
          | tc :: ts =>
            rw [show isMatchingChars (tc :: ts) (pc :: ps) =
                (tc = pc && isMatchingChars ts ps) from by
              rw [isMatchingChars]; simp [hq, hs]]
            simp only [Bool.and_eq_true, decide_eq_true_eq]
            rw [ih ps ts (by simp at hle ⊢; omega)]
            constructor
            · rintro ⟨rfl, h⟩; exact ⟨ts, rfl, h⟩
            · rintro ⟨ts2, heq, h⟩
              cases heq; exact ⟨rfl, h⟩

/-- **C4.** The message-bus wildcard match is an anchored full-string match in
which `?` consumes exactly one character and `*` consumes zero or more
characters (equivalence with the relational semantics `GlobMatch`); in
particular `comp*` matches `comp`, `complete` and `computer`; `c?mp` matches
`camp` and `comp` but not `cmp` or `champ`; and `c*p` matches `cp`, `comp`
and `clamp`. -/
theorem C4_wildcard_matching :
    (∀ topic pattern : String,
      msgbus_is_matching topic pattern = true ↔ GlobMatch pattern.data topic.data) ∧
    msgbus_is_matching "comp" "comp*" = true ∧
    msgbus_is_matching "complete" "comp*" = true ∧
    msgbus_is_matching "computer" "comp*" = true ∧
    msgbus_is_matching "camp" "c?mp" = true ∧
    msgbus_is_matching "comp" "c?mp" = true ∧
    msgbus_is_matching "cmp" "c?mp" = false ∧
    msgbus_is_matching "champ" "c?mp" = false ∧
    msgbus_is_matching "cp" "c*p" = true ∧
    msgbus_is_matching "comp" "c*p" = true ∧
    msgbus_is_matching "clamp" "c*p" = true := by
  refine ⟨?_, ?_, ?_, ?_, ?_, ?_, ?_, ?_, ?_, ?_, ?_⟩
  · intro topic pattern
    exact isMatchingChars_iff_globMatch (pattern.data.length + topic.data.length)
      pattern.data topic.data le_rfl
  all_goals simp [msgbus_is_matching, isMatchingChars]

lemma dueAt_bounds {k : TimerKind} {t0 t1 time : Nat} (h : k.dueAt t0 t1 time) :
    t0 < time ∧ time ≤ t1 := by
  cases k with
  | alert a => exact ⟨h.2.1, h.2.2⟩
  | periodic iv start stop => exact ⟨h.2.1, h.2.2.1⟩

lemma mem_fireTimes {k : TimerKind} (hk : k.intervalPos = true) (t0 t1 time : Nat) :
    time ∈ k.fireTimes t0 t1 ↔ k.dueAt t0 t1 time := by
  cases k with
  | alert a =>
    simp only [TimerKind.fireTimes, TimerKind.dueAt]
    by_cases hc : t0 < a ∧ a ≤ t1
    · rw [if_pos hc]
      simp only [List.mem_singleton]
      constructor
      · rintro rfl; exact ⟨rfl, hc.1, hc.2⟩
      · rintro ⟨rfl, _⟩; rfl
    · rw [if_neg hc]
      simp only [List.not_mem_nil, false_iff]
      rintro ⟨rfl, hb1, hb2⟩
      exact hc ⟨hb1, hb2⟩
  | periodic iv start stop =>
    have hiv : 0 < iv := by simpa [TimerKind.intervalPos] using hk
    simp only [TimerKind.fireTimes, TimerKind.dueAt, List.mem_filter, List.mem_map,
      List.mem_range, Bool.and_eq_true, Bool.or_eq_true, decide_eq_true_eq]
    constructor
    · rintro ⟨⟨j, hj, rfl⟩, hf⟩
      exact ⟨⟨j + 1, by omega, rfl⟩, hf.1.1, hf.1.2, hf.2⟩
    · rintro ⟨⟨j, hj1, rfl⟩, h0, h1, hstop⟩
      have hmul : j * iv ≤ t1 - start := by omega
      have hdiv : j ≤ (t1 - start) / iv := (Nat.le_div_iff_mul_le hiv).mpr hmul
      refine ⟨⟨j - 1, by omega, ?_⟩, ⟨h0, h1⟩, hstop⟩
      have : j - 1 + 1 = j := by omega
      rw [this]

lemma eventLE_trans (a b c : Nat × TimeEventModel) :
    eventLE a b = true → eventLE b c = true → eventLE a c = true := by
  simp only [eventLE, Bool.or_eq_true, Bool.and_eq_true, decide_eq_true_eq]
  omega

lemma eventLE_total (a b : Nat × TimeEventModel) :
    (eventLE a b || eventLE b a) = true := by
  simp only [eventLE, Bool.or_eq_true, Bool.and_eq_true, decide_eq_true_eq]
  omega

/-- **C5.** The lifecycle transition function maps `(state, trigger)` exactly
per the table of spec §4.3: every table row is realised; every transition
the function performs is a table row; any trigger not listed for the
current state raises and leaves the state unchanged; and no trigger leads
out of the terminal states `DISPOSED` and `FAULTED`. -/
theorem C5_component_lifecycle :
    (∀ s t s2, specTableRow s t s2 → componentTransition s t = some s2) ∧
    (∀ s t s2, componentTransition s t = some s2 → specTableRow s t s2) ∧
    (∀ s t, componentTransition s t = none → componentStep s t = (s, true)) ∧
    (∀ s t s2, componentTransition s t = some s2 → componentStep s t = (s2, false)) ∧
    (∀ t, componentTransition .disposed t = none ∧ componentTransition .faulted t = none) := by
  refine ⟨by decide, by decide, ?_, ?_, by decide⟩
  · intro s t h; simp [componentStep, h]
  · intro s t s2 h; simp [componentStep, h]

/-- Witness for C5: scenario S6 of the spec — `STOPPED` + `START` raises and
leaves the state unchanged, while `STOPPED` + `RESET` → `RESETTING` →
(`RESET_COMPLETED`) → `READY` → (`START`) → `STARTING`. -/
theorem C5_component_lifecycle_witness :
    componentStep .stopped .trStart = (.stopped, true) ∧
    componentTransition .stopped .trReset = some .resetting ∧
    componentTransition .resetting .trResetCompleted = some .ready ∧
    componentTransition .ready .trStart = some .starting := by
  refine ⟨C5_component_lifecycle.2.2.1 .stopped .trStart (by decide), ?_, ?_, ?_⟩
  · exact C5_component_lifecycle.1 .stopped .trReset .resetting (by decide)
  · exact C5_component_lifecycle.1 .resetting .trResetCompleted .ready (by decide)
  · exact C5_component_lifecycle.1 .ready .trStart .starting (by decide)

/-- **C6.** For a `TestClock` at time `t0`, `advance_time(to_ns, set_time)`
returns exactly the timer/alert firings with `ts_event` in `(t0, to_ns]`
(recurring timers contribute every due firing, alerts fire at most once and
are removed afterwards), in ascending `ts_event` order with ties broken by
registration order; afterwards the clock reads `to_ns` when `set_time` is
true and is unchanged otherwise. -/
theorem C6_test_clock_advance_time (clock : TestClockModel) (to_ns : Nat) (set_time : Bool)
    (h : ∀ tm ∈ clock.timers, tm.kind.intervalPos = true) :
    (∀ i e, (i, e) ∈ (test_clock_advance_time clock to_ns set_time).1 ↔
      ∃ tm, clock.timers[i]? = some tm ∧ e.name = tm.name ∧
        tm.kind.dueAt clock.time_ns to_ns e.ts_event) ∧
    (∀ p ∈ (test_clock_advance_time clock to_ns set_time).1,
      clock.time_ns < p.2.ts_event ∧ p.2.ts_event ≤ to_ns) ∧
    List.Pairwise (fun a b => a.2.ts_event < b.2.ts_event ∨
      (a.2.ts_event = b.2.ts_event ∧ a.1 ≤ b.1))
      (test_clock_advance_time clock to_ns set_time).1 ∧
    ((test_clock_advance_time clock to_ns set_time).2.time_ns =
      if set_time then to_ns else clock.time_ns) ∧
    (∀ tm, tm ∈ (test_clock_advance_time clock to_ns set_time).2.timers ↔
      tm ∈ clock.timers ∧ ∀ a, tm.kind = TimerKind.alert a →
        ¬(clock.time_ns < a ∧ a ≤ to_ns)) := by
  have hmem : ∀ i e, (i, e) ∈ (test_clock_advance_time clock to_ns set_time).1 ↔
      ∃ tm, clock.timers[i]? = some tm ∧ e.name = tm.name ∧
        tm.kind.dueAt clock.time_ns to_ns e.ts_event := by
    intro i e
    show (i, e) ∈ List.mergeSort _ eventLE ↔ _
    rw [List.mem_mergeSort, List.mem_flatMap]
    constructor
    · rintro ⟨⟨j, tm⟩, hp, hin⟩
      simp only [List.mem_map] at hin
      obtain ⟨time, htime, heq⟩ := hin
      rw [Prod.mk.injEq] at heq
      obtain ⟨hji, hee⟩ := heq
      have hget : clock.timers[i]? = some tm := by
        rw [← hji]
        exact List.mem_enum_iff_getElem?.mp hp
      have htm : tm ∈ clock.timers := by
        have hg := hget
        rw [List.getElem?_eq_some_iff] at hg
        obtain ⟨hlt, rfl⟩ := hg
        exact List.getElem_mem hlt
      refine ⟨tm, hget, ?_, ?_⟩
      · rw [← hee]
      · rw [← hee]
        exact (mem_fireTimes (h tm htm) _ _ _).mp htime
    · rintro ⟨tm, hget, hname, hdue⟩
      have htm : tm ∈ clock.timers := by
        have hg := hget
        rw [List.getElem?_eq_some_iff] at hg
        obtain ⟨hlt, rfl⟩ := hg
        exact List.getElem_mem hlt
      refine ⟨(i, tm), List.mem_enum_iff_getElem?.mpr hget, ?_⟩
      simp only [List.mem_map]
      refine ⟨e.ts_event, (mem_fireTimes (h tm htm) _ _ _).mpr hdue, ?_⟩
      cases e with
      | mk n ts => cases hname; rfl
  refine ⟨hmem, ?_, ?_, ?_, ?_⟩
  · rintro ⟨i, e⟩ hp
    exact dueAt_bounds ((hmem i e).mp hp).choose_spec.2.2
  · have hs := List.sorted_mergeSort eventLE_trans eventLE_total
      (clock.timers.enum.flatMap
        (fun p => (p.2.kind.fireTimes clock.time_ns to_ns).map
          (fun time => (p.1, TimeEventModel.mk p.2.name time))))
    refine List.Pairwise.imp ?_ hs
    intro a b hab
    simpa only [eventLE, Bool.or_eq_true, Bool.and_eq_true, decide_eq_true_eq] using hab
  · rfl
  · intro tm
    show tm ∈ List.filter _ clock.timers ↔ _
    rw [List.mem_filter]
    constructor
    · rintro ⟨h1, h2⟩
      refine ⟨h1, ?_⟩
      intro a hk hcond
      rw [hk] at h2
      simp only [Bool.not_eq_true', Bool.and_eq_false_iff, decide_eq_false_iff_not] at h2
      rcases h2 with h2 | h2
      · exact h2 hcond.1
      · exact h2 hcond.2
    · rintro ⟨h1, h2⟩
      refine ⟨h1, ?_⟩
      cases hk : tm.kind with
      | alert a =>
        have := h2 a hk
        simp only [hk, Bool.not_eq_true', Bool.and_eq_false_iff, decide_eq_false_iff_not]
        by_cases hlt : clock.time_ns < a
        · exact Or.inr (fun hle => this ⟨hlt, hle⟩)
        · exact Or.inl hlt
      | periodic iv s st => simp [hk]

/-- Witness for C6, following spec scenario S3 in miniature: a clock at 0
with a recurring timer (interval 3, start 0, open-ended) and an alert at 9,
advanced to 9 with `set_time = true`.  The timer firing at 3 is returned,
the alert firing at 9 is returned, a firing at 12 is not, the clock now
reads 9, and the alert is removed while the timer remains. -/
theorem C6_test_clock_advance_time_witness :
    (0, TimeEventModel.mk "T" 3) ∈
      (test_clock_advance_time
        (TestClockModel.mk 0 [TimerModel.mk "T" (TimerKind.periodic 3 0 0),
          TimerModel.mk "A" (TimerKind.alert 9)]) 9 true).1 ∧
    (1, TimeEventModel.mk "A" 9) ∈
      (test_clock_advance_time
        (TestClockModel.mk 0 [TimerModel.mk "T" (TimerKind.periodic 3 0 0),
          TimerModel.mk "A" (TimerKind.alert 9)]) 9 true).1 ∧
    ¬((0, TimeEventModel.mk "T" 12) ∈
      (test_clock_advance_time
        (TestClockModel.mk 0 [TimerModel.mk "T" (TimerKind.periodic 3 0 0),
          TimerModel.mk "A" (TimerKind.alert 9)]) 9 true).1) ∧
    (test_clock_advance_time
        (TestClockModel.mk 0 [TimerModel.mk "T" (TimerKind.periodic 3 0 0),
          TimerModel.mk "A" (TimerKind.alert 9)]) 9 true).2 =
      TestClockModel.mk 9 [TimerModel.mk "T" (TimerKind.periodic 3 0 0)] := by
  have hpos : ∀ tm ∈ (TestClockModel.mk 0 [TimerModel.mk "T" (TimerKind.periodic 3 0 0),
      TimerModel.mk "A" (TimerKind.alert 9)]).timers, tm.kind.intervalPos = true := by decide
  have hc := C6_test_clock_advance_time
    (TestClockModel.mk 0 [TimerModel.mk "T" (TimerKind.periodic 3 0 0),
      TimerModel.mk "A" (TimerKind.alert 9)]) 9 true hpos
  refine ⟨?_, ?_, ?_, ?_⟩
  · refine (hc.1 0 (TimeEventModel.mk "T" 3)).mpr
      ⟨TimerModel.mk "T" (TimerKind.periodic 3 0 0), by decide, rfl, ?_⟩
    exact ⟨⟨1, by decide, by decide⟩, by decide, by decide, Or.inl rfl⟩
  · refine (hc.1 1 (TimeEventModel.mk "A" 9)).mpr
      ⟨TimerModel.mk "A" (TimerKind.alert 9), by decide, rfl, ?_⟩
    exact ⟨rfl, by decide, by decide⟩
  · intro hbad
    obtain ⟨tm, hget, hname, hdue⟩ := (hc.1 0 (TimeEventModel.mk "T" 12)).mp hbad
    obtain rfl : TimerModel.mk "T" (TimerKind.periodic 3 0 0) = tm := by simpa using hget
    exact absurd (dueAt_bounds hdue).2 (by decide)
  · have h5 := hc.2.2.2.2
    have h4 := hc.2.2.2.1
    show _ = _
    rfl

/-- **C1.** In `generate_order_updated` with `venue_order_id_modified`
false, a supplied `venue_order_id` differing from the cache's current
mapping for `client_order_id` raises (`Condition.equal`) and no
`OrderUpdated` event is constructed or sent; when they agree (or
`venue_order_id_modified` is true) the `OrderUpdated` event is constructed
and sent to `ExecEngine.process`. -/
theorem C1_generate_order_updated_cache_check (st : ExecClientState)
    (strategy_id : StrategyId) (instrument_id : InstrumentId)
    (client_order_id : ClientOrderId) (venue_order_id : VenueOrderId)
    (quantity : Quantity) (price : Price) (trigger_price : Option Price)
    (ts_event : Int) (hts : int64Ok ts_event = true) :
    (st.cache client_order_id ≠ some venue_order_id →
      generate_order_updated st strategy_id instrument_id client_order_id venue_order_id
        quantity price trigger_price ts_event false =
        Except.error "Condition.equal: existing, order.venue_order_id") ∧
    (∀ venue_order_id_modified : Bool,
      st.cache client_order_id = some venue_order_id ∨ venue_order_id_modified = true →
      generate_order_updated st strategy_id instrument_id client_order_id venue_order_id
        quantity price trigger_price ts_event venue_order_id_modified =
        Except.ok { st with
          uuid_next := st.uuid_next + 1
          sent_log := st.sent_log ++ [⟨"ExecEngine.process", BusMsg.order
            (OrderEventModel.updated
              { trader_id := st.trader_id
                strategy_id := strategy_id
                account_id := st.account_id
                instrument_id := instrument_id
                client_order_id := client_order_id
                event_id := st.uuid_next
                ts_event := ts_event
                ts_init := st.clock_now } venue_order_id quantity price trigger_price)⟩] }) := by
  constructor
  · intro hne
    simp only [generate_order_updated, hts, if_true]
    rw [if_neg]
    rintro (h | h)
    · exact absurd h (by simp)
    · exact hne h
  · intro m hm
    simp only [generate_order_updated, hts, if_true]
    rw [if_pos]
    · rfl
    · rcases hm with h | h
      · exact Or.inr h
      · exact Or.inl h

/-- Witness for C1: for the sample client (cache maps every client order id
to `V-001`), supplying the stale `V-999` with `venue_order_id_modified`
false raises, while supplying the matching `V-001` sends the event. -/
theorem C1_generate_order_updated_cache_check_witness :
    generate_order_updated sampleState (StrategyId.mk "S-001") (InstrumentId.mk "AUD/USD.SIM")
      (ClientOrderId.mk "O-19700101-000000-000-001-1") (VenueOrderId.mk "V-999")
      (Quantity.mk 100000) (Price.mk 100) none 50 false =
      Except.error "Condition.equal: existing, order.venue_order_id" ∧
    generate_order_updated sampleState (StrategyId.mk "S-001") (InstrumentId.mk "AUD/USD.SIM")
      (ClientOrderId.mk "O-19700101-000000-000-001-1") (VenueOrderId.mk "V-001")
      (Quantity.mk 100000) (Price.mk 100) none 50 false =
      Except.ok { sampleState with
        uuid_next := 1
        sent_log := [⟨"ExecEngine.process", BusMsg.order
          (OrderEventModel.updated
            { trader_id := TraderId.mk "TRADER-001"
              strategy_id := StrategyId.mk "S-001"
              account_id := none
              instrument_id := InstrumentId.mk "AUD/USD.SIM"
              client_order_id := ClientOrderId.mk "O-19700101-000000-000-001-1"
              event_id := 0
              ts_event := 50
              ts_init := 100 } (VenueOrderId.mk "V-001") (Quantity.mk 100000)
            (Price.mk 100) none)⟩] } := by
  constructor
  · exact (C1_generate_order_updated_cache_check sampleState (StrategyId.mk "S-001")
      (InstrumentId.mk "AUD/USD.SIM") (ClientOrderId.mk "O-19700101-000000-000-001-1")
      (VenueOrderId.mk "V-999") (Quantity.mk 100000) (Price.mk 100) none 50
      (by decide)).1 (by decide)
  · exact (C1_generate_order_updated_cache_check sampleState (StrategyId.mk "S-001")
      (InstrumentId.mk "AUD/USD.SIM") (ClientOrderId.mk "O-19700101-000000-000-001-1")
      (VenueOrderId.mk "V-001") (Quantity.mk 100000) (Price.mk 100) none 50
      (by decide)).2 false (Or.inl (by decide))

/-- **C2.** Every event-generation method routes to exactly one fixed bus
endpoint: `generate_account_state` sends its `AccountState` to
`Portfolio.update_account`; every order lifecycle generator sends to
`ExecEngine.process`; `ExecutionMassStatus` reports go to
`ExecEngine.reconcile_mass_status`; `OrderStatusReport` and `TradeReport`
both go to `ExecEngine.reconcile_report`. -/
theorem C2_endpoint_routing :
    (∀ st b m r ts i st2, generate_account_state st b m r ts i = Except.ok st2 →
      st2.sent_log.map Sent.endpoint =
        st.sent_log.map Sent.endpoint ++ ["Portfolio.update_account"]) ∧
    (∀ st a b c ts st2, generate_order_submitted st a b c ts = Except.ok st2 →
      st2.sent_log.map Sent.endpoint =
        st.sent_log.map Sent.endpoint ++ ["ExecEngine.process"]) ∧
    (∀ st a b c r ts st2, generate_order_rejected st a b c r ts = Except.ok st2 →
      st2.sent_log.map Sent.endpoint =
        st.sent_log.map Sent.endpoint ++ ["ExecEngine.process"]) ∧
    (∀ st a b c v ts st2, generate_order_accepted st a b c v ts = Except.ok st2 →
      st2.sent_log.map Sent.endpoint =
        st.sent_log.map Sent.endpoint ++ ["ExecEngine.process"]) ∧
    (∀ st a b c v ts st2, generate_order_pending_update st a b c v ts = Except.ok st2 →
      st2.sent_log.map Sent.endpoint =
        st.sent_log.map Sent.endpoint ++ ["ExecEngine.process"]) ∧
    (∀ st a b c v ts st2, generate_order_pending_cancel st a b c v ts = Except.ok st2 →
      st2.sent_log.map Sent.endpoint =
        st.sent_log.map Sent.endpoint ++ ["ExecEngine.process"]) ∧
    (∀ st a b c v r ts st2, generate_order_modify_rejected st a b c v r ts = Except.ok st2 →
      st2.sent_log.map Sent.endpoint =
        st.sent_log.map Sent.endpoint ++ ["ExecEngine.process"]) ∧
    (∀ st a b c v r ts st2, generate_order_cancel_rejected st a b c v r ts = Except.ok st2 →
      st2.sent_log.map Sent.endpoint =
        st.sent_log.map Sent.endpoint ++ ["ExecEngine.process"]) ∧
    (∀ st a b c v q p tp ts m st2,
      generate_order_updated st a b c v q p tp ts m = Except.ok st2 →
      st2.sent_log.map Sent.endpoint =
        st.sent_log.map Sent.endpoint ++ ["ExecEngine.process"]) ∧
    (∀ st a b c v ts st2, generate_order_canceled st a b c v ts = Except.ok st2 →
      st2.sent_log.map Sent.endpoint =
        st.sent_log.map Sent.endpoint ++ ["ExecEngine.process"]) ∧
    (∀ st a b c v ts st2, generate_order_triggered st a b c v ts = Except.ok st2 →
      st2.sent_log.map Sent.endpoint =
        st.sent_log.map Sent.endpoint ++ ["ExecEngine.process"]) ∧
    (∀ st a b c v ts st2, generate_order_expired st a b c v ts = Except.ok st2 →
      st2.sent_log.map Sent.endpoint =
        st.sent_log.map Sent.endpoint ++ ["ExecEngine.process"]) ∧
    (∀ st a b c v vp tid os ot lq lp qc cm ls ts st2,
      generate_order_filled st a b c v vp tid os ot lq lp qc cm ls ts = Except.ok st2 →
      st2.sent_log.map Sent.endpoint =
        st.sent_log.map Sent.endpoint ++ ["ExecEngine.process"]) ∧
    (∀ st r, (send_mass_status_report st r).sent_log.map Sent.endpoint =
      st.sent_log.map Sent.endpoint ++ ["ExecEngine.reconcile_mass_status"]) ∧
    (∀ st r, (send_order_status_report st r).sent_log.map Sent.endpoint =
      st.sent_log.map Sent.endpoint ++ ["ExecEngine.reconcile_report"]) ∧
    (∀ st r, (send_trade_report st r).sent_log.map Sent.endpoint =
      st.sent_log.map Sent.endpoint ++ ["ExecEngine.reconcile_report"]) := by
  refine ⟨?_, ?_, ?_, ?_, ?_, ?_, ?_, ?_, ?_, ?_, ?_, ?_, ?_, ?_, ?_, ?_⟩
  · intro st b m r ts i st2 h
    simp only [generate_account_state] at h
    split at h
    · simp only [Except.ok.injEq] at h
      subst h
      simp [send_account_state]
    · exact absurd h (by simp)
  · intro st a b c ts st2 h
    simp only [generate_order_submitted] at h
    split at h
    · simp only [Except.ok.injEq] at h
      subst h
      simp [send_order_event]
    · exact absurd h (by simp)
  · intro st a b c r ts st2 h
    simp only [generate_order_rejected] at h
    split at h
    · simp only [Except.ok.injEq] at h
      subst h
      simp [send_order_event]
    · exact absurd h (by simp)
  · intro st a b c v ts st2 h
    simp only [generate_order_accepted] at h
    split at h
    · simp only [Except.ok.injEq] at h
      subst h
      simp [send_order_event]
    · exact absurd h (by simp)
  · intro st a b c v ts st2 h
    simp only [generate_order_pending_update] at h
    split at h
    · simp only [Except.ok.injEq] at h
      subst h
      simp [send_order_event]
    · exact absurd h (by simp)
  · intro st a b c v ts st2 h
    simp only [generate_order_pending_cancel] at h
    split at h
    · simp only [Except.ok.injEq] at h
      subst h
      simp [send_order_event]
    · exact absurd h (by simp)
  · intro st a b c v r ts st2 h
    simp only [generate_order_modify_rejected] at h
    split at h
    · simp only [Except.ok.injEq] at h
      subst h
      simp [send_order_event]
    · exact absurd h (by simp)
  · intro st a b c v r ts st2 h
    simp only [generate_order_cancel_rejected] at h
    split at h
    · simp only [Except.ok.injEq] at h
      subst h
      simp [send_order_event]
    · exact absurd h (by simp)
  · intro st a b c v q p tp ts m st2 h
    simp only [generate_order_updated] at h
    split at h
    · split at h
      · simp only [Except.ok.injEq] at h
        subst h
        simp [send_order_event]
      · exact absurd h (by simp)
    · exact absurd h (by simp)
  · intro st a b c v ts st2 h
    simp only [generate_order_canceled] at h
    split at h
    · simp only [Except.ok.injEq] at h
      subst h
      simp [send_order_event]
    · exact absurd h (by simp)
  · intro st a b c v ts st2 h
    simp only [generate_order_triggered] at h
    split at h
    · simp only [Except.ok.injEq] at h
      subst h
      simp [send_order_event]
    · exact absurd h (by simp)
  · intro st a b c v ts st2 h
    simp only [generate_order_expired] at h
    split at h
    · simp only [Except.ok.injEq] at h
      subst h
      simp [send_order_event]
    · exact absurd h (by simp)
  · intro st a b c v vp tid os ot lq lp qc cm ls ts st2 h
    simp only [generate_order_filled] at h
    split at h
    · simp only [Except.ok.injEq] at h
      subst h
      simp [send_order_event]
    · exact absurd h (by simp)
  · intro st r
    simp [send_mass_status_report]
  · intro st r
    simp [send_order_status_report]
  · intro st r
    simp [send_trade_report]

/-- Witness for C2: concrete deliveries of an account state, an order
submitted event, and the three report kinds, each reaching its endpoint. -/
theorem C2_endpoint_routing_witness :
    ((generate_account_state sampleState [] [] true 50 []).map
      (fun st2 => st2.sent_log.map Sent.endpoint)) =
      Except.ok ["Portfolio.update_account"] ∧
    ((generate_order_submitted sampleState (StrategyId.mk "S-001")
        (InstrumentId.mk "AUD/USD.SIM") (ClientOrderId.mk "O-1") 50).map
      (fun st2 => st2.sent_log.map Sent.endpoint)) =
      Except.ok ["ExecEngine.process"] ∧
    (send_mass_status_report sampleState (ExecutionMassStatus.mk "m")).sent_log.map
      Sent.endpoint = ["ExecEngine.reconcile_mass_status"] ∧
    (send_order_status_report sampleState (OrderStatusReport.mk "o")).sent_log.map
      Sent.endpoint = ["ExecEngine.reconcile_report"] ∧
    (send_trade_report sampleState (TradeReport.mk "t")).sent_log.map
      Sent.endpoint = ["ExecEngine.reconcile_report"] := by
  refine ⟨?_, ?_, ?_, ?_, ?_⟩
  · obtain ⟨st2, hok⟩ : ∃ st2, generate_account_state sampleState [] [] true 50 [] =
        Except.ok st2 := ⟨_, rfl⟩
    rw [hok]
    have := C2_endpoint_routing.1 sampleState [] [] true 50 [] st2 hok
    simp only [Except.map]
    rw [this]
    rfl
  · obtain ⟨st2, hok⟩ : ∃ st2, generate_order_submitted sampleState (StrategyId.mk "S-001")
        (InstrumentId.mk "AUD/USD.SIM") (ClientOrderId.mk "O-1") 50 =
        Except.ok st2 := ⟨_, rfl⟩
    rw [hok]
    have := C2_endpoint_routing.2.1 sampleState (StrategyId.mk "S-001")
      (InstrumentId.mk "AUD/USD.SIM") (ClientOrderId.mk "O-1") 50 st2 hok
    simp only [Except.map]
    rw [this]
    rfl
  · exact C2_endpoint_routing.2.2.2.2.2.2.2.2.2.2.2.2.2.1 sampleState
      (ExecutionMassStatus.mk "m")
  · exact C2_endpoint_routing.2.2.2.2.2.2.2.2.2.2.2.2.2.2.1 sampleState
      (OrderStatusReport.mk "o")
  · exact C2_endpoint_routing.2.2.2.2.2.2.2.2.2.2.2.2.2.2.2 sampleState
      (TradeReport.mk "t")

/-- Counterexample to **C3** as stated: the generators do not enforce
`ts_init >= ts_event`.  The sample client's clock reads 100; calling
`generate_order_submitted` with caller-supplied `ts_event = 101` emits an
event with `ts_init = 100 < 101 = ts_event`. -/
theorem C3_counterexample :
    generate_order_submitted sampleState (StrategyId.mk "S-001")
      (InstrumentId.mk "AUD/USD.SIM") (ClientOrderId.mk "O-1") 101 =
      Except.ok { sampleState with
        uuid_next := 1
        sent_log := [⟨"ExecEngine.process", BusMsg.order (OrderEventModel.submitted
          { trader_id := TraderId.mk "TRADER-001"
            strategy_id := StrategyId.mk "S-001"
            account_id := none
            instrument_id := InstrumentId.mk "AUD/USD.SIM"
            client_order_id := ClientOrderId.mk "O-1"
            event_id := 0
            ts_event := 101
            ts_init := 100 })⟩] } ∧
    ¬(((100 : Nat) : Int) ≥ (101 : Int)) := by
  exact ⟨rfl, by decide⟩

/-- **C3 (amended).** Every event emitted by a generator carries
`event_id` freshly drawn from the client's UUID supply (successive calls
therefore yield distinct ids), `ts_event` equal to the caller-supplied
value and `ts_init` equal to the clock reading at construction; whenever
the caller supplies `ts_event` no later than the clock reading (the code
itself does not enforce this), the emitted event satisfies
`ts_init >= ts_event`. -/
theorem C3_event_construction :
    (∀ st b m r ts i st2, generate_account_state st b m r ts i = Except.ok st2 →
      st2.uuid_next = st.uuid_next + 1 ∧
      st2.sent_log.map (fun s => s.msg.eventMeta) =
        st.sent_log.map (fun s => s.msg.eventMeta) ++ [some (st.uuid_next, ts, st.clock_now)]) ∧
    (∀ st a b c ts st2, generate_order_submitted st a b c ts = Except.ok st2 →
      st2.uuid_next = st.uuid_next + 1 ∧
      st2.sent_log.map (fun s => s.msg.eventMeta) =
        st.sent_log.map (fun s => s.msg.eventMeta) ++ [some (st.uuid_next, ts, st.clock_now)]) ∧
    (∀ st a b c r ts st2, generate_order_rejected st a b c r ts = Except.ok st2 →
      st2.uuid_next = st.uuid_next + 1 ∧
      st2.sent_log.map (fun s => s.msg.eventMeta) =
        st.sent_log.map (fun s => s.msg.eventMeta) ++ [some (st.uuid_next, ts, st.clock_now)]) ∧
    (∀ st a b c v ts st2, generate_order_accepted st a b c v ts = Except.ok st2 →
      st2.uuid_next = st.uuid_next + 1 ∧
      st2.sent_log.map (fun s => s.msg.eventMeta) =
        st.sent_log.map (fun s => s.msg.eventMeta) ++ [some (st.uuid_next, ts, st.clock_now)]) ∧
    (∀ st a b c v ts st2, generate_order_pending_update st a b c v ts = Except.ok st2 →
      st2.uuid_next = st.uuid_next + 1 ∧
      st2.sent_log.map (fun s => s.msg.eventMeta) =
        st.sent_log.map (fun s => s.msg.eventMeta) ++ [some (st.uuid_next, ts, st.clock_now)]) ∧
    (∀ st a b c v ts st2, generate_order_pending_cancel st a b c v ts = Except.ok st2 →
      st2.uuid_next = st.uuid_next + 1 ∧
      st2.sent_log.map (fun s => s.msg.eventMeta) =
        st.sent_log.map (fun s => s.msg.eventMeta) ++ [some (st.uuid_next, ts, st.clock_now)]) ∧
    (∀ st a b c v r ts st2, generate_order_modify_rejected st a b c v r ts = Except.ok st2 →
      st2.uuid_next = st.uuid_next + 1 ∧
      st2.sent_log.map (fun s => s.msg.eventMeta) =
        st.sent_log.map (fun s => s.msg.eventMeta) ++ [some (st.uuid_next, ts, st.clock_now)]) ∧
    (∀ st a b c v r ts st2, generate_order_cancel_rejected st a b c v r ts = Except.ok st2 →
      st2.uuid_next = st.uuid_next + 1 ∧
      st2.sent_log.map (fun s => s.msg.eventMeta) =
        st.sent_log.map (fun s => s.msg.eventMeta) ++ [some (st.uuid_next, ts, st.clock_now)]) ∧
    (∀ st a b c v q p tp ts m st2,
      generate_order_updated st a b c v q p tp ts m = Except.ok st2 →
      st2.uuid_next = st.uuid_next + 1 ∧
      st2.sent_log.map (fun s => s.msg.eventMeta) =
        st.sent_log.map (fun s => s.msg.eventMeta) ++ [some (st.uuid_next, ts, st.clock_now)]) ∧
    (∀ st a b c v ts st2, generate_order_canceled st a b c v ts = Except.ok st2 →
      st2.uuid_next = st.uuid_next + 1 ∧
      st2.sent_log.map (fun s => s.msg.eventMeta) =
        st.sent_log.map (fun s => s.msg.eventMeta) ++ [some (st.uuid_next, ts, st.clock_now)]) ∧
    (∀ st a b c v ts st2, generate_order_triggered st a b c v ts = Except.ok st2 →
      st2.uuid_next = st.uuid_next + 1 ∧
      st2.sent_log.map (fun s => s.msg.eventMeta) =
        st.sent_log.map (fun s => s.msg.eventMeta) ++ [some (st.uuid_next, ts, st.clock_now)]) ∧
    (∀ st a b c v ts st2, generate_order_expired st a b c v ts = Except.ok st2 →
      st2.uuid_next = st.uuid_next + 1 ∧
      st2.sent_log.map (fun s => s.msg.eventMeta) =
        st.sent_log.map (fun s => s.msg.eventMeta) ++ [some (st.uuid_next, ts, st.clock_now)]) ∧
    (∀ st a b c v vp tid os ot lq lp qc cm ls ts st2,
      generate_order_filled st a b c v vp tid os ot lq lp qc cm ls ts = Except.ok st2 →
      st2.uuid_next = st.uuid_next + 1 ∧
      st2.sent_log.map (fun s => s.msg.eventMeta) =
        st.sent_log.map (fun s => s.msg.eventMeta) ++ [some (st.uuid_next, ts, st.clock_now)]) ∧
    (∀ st a b c ts a2 b2 c2 v2 ts2 st2 st3,
      generate_order_submitted st a b c ts = Except.ok st2 →
      generate_order_accepted st2 a2 b2 c2 v2 ts2 = Except.ok st3 →
      st3.sent_log.map (fun s => s.msg.eventMeta.map Prod.fst) =
        st.sent_log.map (fun s => s.msg.eventMeta.map Prod.fst) ++
          [some st.uuid_next, some (st.uuid_next + 1)] ∧
      st.uuid_next ≠ st.uuid_next + 1) ∧
    (∀ st a b c ts st2, generate_order_submitted st a b c ts = Except.ok st2 →
      ts ≤ (st.clock_now : Int) →
      ∀ s ∈ st2.sent_log, s ∈ st.sent_log ∨
        ∀ n tse tsi, s.msg.eventMeta = some (n, tse, tsi) → tse ≤ (tsi : Int)) := by
  refine ⟨?_, ?_, ?_, ?_, ?_, ?_, ?_, ?_, ?_, ?_, ?_, ?_, ?_, ?_, ?_⟩
  · intro st b m r ts i st2 h
    simp only [generate_account_state] at h
    split at h
    · simp only [Except.ok.injEq] at h
      subst h
      exact ⟨rfl, by simp [send_account_state, BusMsg.eventMeta]⟩
    · exact absurd h (by simp)
  · intro st a b c ts st2 h
    simp only [generate_order_submitted] at h
    split at h
    · simp only [Except.ok.injEq] at h
      subst h
      exact ⟨rfl, by simp [send_order_event, BusMsg.eventMeta, OrderEventModel.fields]⟩
    · exact absurd h (by simp)
  · intro st a b c r ts st2 h
    simp only [generate_order_rejected] at h
    split at h
    · simp only [Except.ok.injEq] at h
      subst h
      exact ⟨rfl, by simp [send_order_event, BusMsg.eventMeta, OrderEventModel.fields]⟩
    · exact absurd h (by simp)
  · intro st a b c v ts st2 h
    simp only [generate_order_accepted] at h
    split at h
    · simp only [Except.ok.injEq] at h
      subst h
      exact ⟨rfl, by simp [send_order_event, BusMsg.eventMeta, OrderEventModel.fields]⟩
    · exact absurd h (by simp)
  · intro st a b c v ts st2 h
    simp only [generate_order_pending_update] at h
    split at h
    · simp only [Except.ok.injEq] at h
      subst h
      exact ⟨rfl, by simp [send_order_event, BusMsg.eventMeta, OrderEventModel.fields]⟩
    · exact absurd h (by simp)
  · intro st a b c v ts st2 h
    simp only [generate_order_pending_cancel] at h
    split at h
    · simp only [Except.ok.injEq] at h
      subst h
      exact ⟨rfl, by simp [send_order_event, BusMsg.eventMeta, OrderEventModel.fields]⟩
    · exact absurd h (by simp)
  · intro st a b c v r ts st2 h
    simp only [generate_order_modify_rejected] at h
    split at h
    · simp only [Except.ok.injEq] at h
      subst h
      exact ⟨rfl, by simp [send_order_event, BusMsg.eventMeta, OrderEventModel.fields]⟩
    · exact absurd h (by simp)
  · intro st a b c v r ts st2 h
    simp only [generate_order_cancel_rejected] at h
    split at h
    · simp only [Except.ok.injEq] at h
      subst h
      exact ⟨rfl, by simp [send_order_event, BusMsg.eventMeta, OrderEventModel.fields]⟩
    · exact absurd h (by simp)
  · intro st a b c v q p tp ts m st2 h
    simp only [generate_order_updated] at h
    split at h
    · split at h
      · simp only [Except.ok.injEq] at h
        subst h
        exact ⟨rfl, by simp [send_order_event, BusMsg.eventMeta, OrderEventModel.fields]⟩
      · exact absurd h (by simp)
    · exact absurd h (by simp)
  · intro st a b c v ts st2 h
    simp only [generate_order_canceled] at h
    split at h
    · simp only [Except.ok.injEq] at h
      subst h
      exact ⟨rfl, by simp [send_order_event, BusMsg.eventMeta, OrderEventModel.fields]⟩
    · exact absurd h (by simp)
  · intro st a b c v ts st2 h
    simp only [generate_order_triggered] at h
    split at h
    · simp only [Except.ok.injEq] at h
      subst h
      exact ⟨rfl, by simp [send_order_event, BusMsg.eventMeta, OrderEventModel.fields]⟩
    · exact absurd h (by simp)
  · intro st a b c v ts st2 h
    simp only [generate_order_expired] at h
    split at h
    · simp only [Except.ok.injEq] at h
      subst h
      exact ⟨rfl, by simp [send_order_event, BusMsg.eventMeta, OrderEventModel.fields]⟩
    · exact absurd h (by simp)
  · intro st a b c v vp tid os ot lq lp qc cm ls ts st2 h
    simp only [generate_order_filled] at h
    split at h
    · simp only [Except.ok.injEq] at h
      subst h
      exact ⟨rfl, by simp [send_order_event, BusMsg.eventMeta, OrderEventModel.fields]⟩
    · exact absurd h (by simp)
  · intro st a b c ts a2 b2 c2 v2 ts2 st2 st3 h1 h2
    simp only [generate_order_submitted] at h1
    split at h1
    · simp only [Except.ok.injEq] at h1
      subst h1
      simp only [generate_order_accepted] at h2
      split at h2
      · simp only [Except.ok.injEq] at h2
        subst h2
        refine ⟨?_, by omega⟩
        simp [send_order_event, BusMsg.eventMeta, OrderEventModel.fields]
      · exact absurd h2 (by simp)
    · exact absurd h1 (by simp)
  · intro st a b c ts st2 h hle s hs
    simp only [generate_order_submitted] at h
    split at h
    · simp only [Except.ok.injEq] at h
      subst h
      simp only [send_order_event, List.mem_append, List.mem_singleton] at hs
      rcases hs with hs | hs
      · exact Or.inl hs
      · subst hs
        refine Or.inr ?_
        intro n tse tsi hmeta
        simp only [BusMsg.eventMeta, OrderEventModel.fields, Option.some.injEq,
          Prod.mk.injEq] at hmeta
        obtain ⟨-, h1, h2⟩ := hmeta
        subst h1
        subst h2
        exact hle
    · exact absurd h (by simp)

/-- Witness for C3 (amended): for the sample client (clock at 100, supply
at 0), a submitted event with `ts_event = 50` carries metadata
`(event_id, ts_event, ts_init) = (0, 50, 100)`; chaining an accepted event
yields ids `0` then `1`; and `ts_event = 50 ≤ 100 = ts_init`. -/
theorem C3_event_construction_witness :
    ((generate_order_submitted sampleState (StrategyId.mk "S-001")
        (InstrumentId.mk "AUD/USD.SIM") (ClientOrderId.mk "O-1") 50).map
      (fun st2 => st2.sent_log.map (fun s => s.msg.eventMeta))) =
      Except.ok [some (0, 50, 100)] ∧
    ((generate_order_submitted sampleState (StrategyId.mk "S-001")
        (InstrumentId.mk "AUD/USD.SIM") (ClientOrderId.mk "O-1") 50).map
      (fun st2 => st2.uuid_next)) = Except.ok 1 ∧
    (50 : Int) ≤ ((100 : Nat) : Int) := by
  have hok : generate_order_submitted sampleState (StrategyId.mk "S-001")
      (InstrumentId.mk "AUD/USD.SIM") (ClientOrderId.mk "O-1") 50 =
      Except.ok (send_order_event { sampleState with uuid_next := 1 }
        (OrderEventModel.submitted
          { trader_id := TraderId.mk "TRADER-001"
            strategy_id := StrategyId.mk "S-001"
            account_id := none
            instrument_id := InstrumentId.mk "AUD/USD.SIM"
            client_order_id := ClientOrderId.mk "O-1"
            event_id := 0
            ts_event := 50
            ts_init := 100 })) := rfl
  have hmain := C3_event_construction.2.1 sampleState (StrategyId.mk "S-001")
    (InstrumentId.mk "AUD/USD.SIM") (ClientOrderId.mk "O-1") 50 _ hok
  have hcond := C3_event_construction.2.2.2.2.2.2.2.2.2.2.2.2.2.2 sampleState
    (StrategyId.mk "S-001") (InstrumentId.mk "AUD/USD.SIM") (ClientOrderId.mk "O-1") 50 _
    hok (by decide)
    ⟨"ExecEngine.process", BusMsg.order (OrderEventModel.submitted
      { trader_id := TraderId.mk "TRADER-001"
        strategy_id := StrategyId.mk "S-001"
        account_id := none
        instrument_id := InstrumentId.mk "AUD/USD.SIM"
        client_order_id := ClientOrderId.mk "O-1"
        event_id := 0
        ts_event := 50
        ts_init := 100 })⟩ (by simp [send_order_event])
  refine ⟨?_, ?_, ?_⟩
  · rw [hok]
    simp only [Except.map]
    rw [hmain.2]
    rfl
  · rw [hok]
    simp only [Except.map]
    rw [hmain.1]
    rfl
  · rcases hcond with hbad | hgood
    · exact absurd hbad (by simp [sampleState])
    · exact hgood 0 50 100 rfl

/-- Counterexample to **C7** as stated: `_set_account_id` does not forbid a
second assignment.  With the account id already set to `SIM-001`, a second
call with the issuer-matching `SIM-002` succeeds and overwrites. -/
theorem C7_counterexample :
    set_account_id { sampleState with account_id := some (AccountId.mk "SIM" "001") }
      (AccountId.mk "SIM" "002") =
      Except.ok { sampleState with account_id := some (AccountId.mk "SIM" "002") } := rfl

/-- **C7 (amended).** `_set_account_id` enforces at set-time that the
`AccountId`'s issuer equals the client's id value: a mismatch raises and
nothing is stored, a match stores the account id.  The code does not
prevent reassignment: each successful call simply overwrites the stored
account id. -/
theorem C7_set_account_id (st : ExecClientState) (account_id : AccountId) :
    (st.client_id.value ≠ account_id.issuer →
      set_account_id st account_id =
        Except.error "Condition.equal: id.value, account_id.issuer") ∧
    (st.client_id.value = account_id.issuer →
      set_account_id st account_id = Except.ok { st with account_id := some account_id }) := by
  constructor
  · intro h
    simp [set_account_id, h]
  · intro h
    simp [set_account_id, h]

/-- Witness for C7 (amended): for the sample client (id `SIM`), issuer
`BINANCE` is rejected and issuer `SIM` is stored. -/
theorem C7_set_account_id_witness :
    set_account_id sampleState (AccountId.mk "BINANCE" "001") =
      Except.error "Condition.equal: id.value, account_id.issuer" ∧
    set_account_id sampleState (AccountId.mk "SIM" "001") =
      Except.ok { sampleState with account_id := some (AccountId.mk "SIM" "001") } :=
  ⟨(C7_set_account_id sampleState (AccountId.mk "BINANCE" "001")).1 (by decide),
   (C7_set_account_id sampleState (AccountId.mk "SIM" "001")).2 (by decide)⟩

/-- **C8.** The `ExecutionClient` constructor raises a validation error
exactly when `oms_type` is the `NONE` value; for any other `oms_type`
construction succeeds, with the documented initial state and with nothing
sent on the bus (the error is raised at the boundary, never propagated as
an event). -/
theorem C8_constructor_oms_validation (client_id : ClientId) (venue : Option Venue)
    (oms_type : OMSType) (account_type : AccountType) (base_currency : Option Currency)
    (msgbus_trader_id : TraderId) (cache : ClientOrderId → Option VenueOrderId)
    (clock_now : Nat) :
    (oms_type = OMSType.NONE →
      ExecutionClient_init client_id venue oms_type account_type base_currency
        msgbus_trader_id cache clock_now =
        Except.error "Condition.not_equal: oms_type, OMSType") ∧
    (oms_type ≠ OMSType.NONE →
      ExecutionClient_init client_id venue oms_type account_type base_currency
        msgbus_trader_id cache clock_now =
        Except.ok
          { client_id := client_id
            trader_id := msgbus_trader_id
            msgbus_trader_id := msgbus_trader_id
            venue := venue
            oms_type := oms_type
            account_type := account_type
            base_currency := base_currency
            account_id := none
            is_connected := false
            cache := cache
            clock_now := clock_now
            uuid_next := 0
            sent_log := [] }) := by
  constructor
  · intro h
    simp [ExecutionClient_init, h]
  · intro h
    simp [ExecutionClient_init, h]

/-- Witness for C8: constructing with `OMSType.NONE` raises; constructing
the sample client with `OMSType.HEDGING` succeeds with an empty send log. -/
theorem C8_constructor_oms_validation_witness :
    ExecutionClient_init (ClientId.mk "SIM") none OMSType.NONE AccountType.MARGIN none
      (TraderId.mk "TRADER-001") sampleCache 100 =
      Except.error "Condition.not_equal: oms_type, OMSType" ∧
    ExecutionClient_init (ClientId.mk "SIM") none OMSType.HEDGING AccountType.MARGIN none
      (TraderId.mk "TRADER-001") sampleCache 100 = Except.ok sampleState :=
  ⟨(C8_constructor_oms_validation (ClientId.mk "SIM") none OMSType.NONE AccountType.MARGIN
      none (TraderId.mk "TRADER-001") sampleCache 100).1 rfl,
   (C8_constructor_oms_validation (ClientId.mk "SIM") none OMSType.HEDGING AccountType.MARGIN
      none (TraderId.mk "TRADER-001") sampleCache 100).2 (by decide)⟩

/-- Counterexample to **C9** as stated: the `ExecutionClient` generators
take `ts_event` as a signed `int64_t`, not an unsigned 64-bit value.  The
negative value `-1` is accepted (and emitted in the event), while the
non-negative 64-bit value `2^63` is rejected with `OverflowError` even
though it lies in the unsigned 64-bit range. -/
theorem C9_counterexample :
    generate_order_submitted sampleState (StrategyId.mk "S-001")
      (InstrumentId.mk "AUD/USD.SIM") (ClientOrderId.mk "O-1") (-1) =
      Except.ok { sampleState with
        uuid_next := 1
        sent_log := [⟨"ExecEngine.process", BusMsg.order (OrderEventModel.submitted
          { trader_id := TraderId.mk "TRADER-001"
            strategy_id := StrategyId.mk "S-001"
            account_id := none
            instrument_id := InstrumentId.mk "AUD/USD.SIM"
            client_order_id := ClientOrderId.mk "O-1"
            event_id := 0
            ts_event := -1
            ts_init := 100 })⟩] } ∧
    generate_order_submitted sampleState (StrategyId.mk "S-001")
      (InstrumentId.mk "AUD/USD.SIM") (ClientOrderId.mk "O-1") (2 ^ 63) =
      Except.error "OverflowError: ts_event" ∧
    ((0 : Int) ≤ 2 ^ 63 ∧ (2 : Int) ^ 63 < 2 ^ 64) := by
  refine ⟨rfl, rfl, by decide⟩

/-- **C9 (amended).** `ts_event` and `ts_init` of the embedded `TimeEvent`
are unsigned (non-negative) nanosecond counts, but the values accepted by
the `ExecutionClient` event generators are signed 64-bit (`int64_t`): a
generator succeeds exactly on `[-2^63, 2^63)` (for `generate_order_updated`,
values outside that range fail before any cache check), so negative values
are representable at that boundary and values at or above `2^63` are not. -/
theorem C9_timestamp_ranges :
    (∀ st a b c ts, (generate_order_submitted st a b c ts).isOk = true ↔
      (-(2 ^ 63) ≤ ts ∧ ts < 2 ^ 63)) ∧
    (∀ st b m r ts i, ¬(-(2 ^ 63) ≤ ts ∧ ts < 2 ^ 63) →
      generate_account_state st b m r ts i = Except.error "OverflowError: ts_event") ∧
    (∀ st a b c r ts, ¬(-(2 ^ 63) ≤ ts ∧ ts < 2 ^ 63) →
      generate_order_rejected st a b c r ts = Except.error "OverflowError: ts_event") ∧
    (∀ st a b c v ts, ¬(-(2 ^ 63) ≤ ts ∧ ts < 2 ^ 63) →
      generate_order_accepted st a b c v ts = Except.error "OverflowError: ts_event") ∧
    (∀ st a b c v ts, ¬(-(2 ^ 63) ≤ ts ∧ ts < 2 ^ 63) →
      generate_order_pending_update st a b c v ts = Except.error "OverflowError: ts_event") ∧
    (∀ st a b c v ts, ¬(-(2 ^ 63) ≤ ts ∧ ts < 2 ^ 63) →
      generate_order_pending_cancel st a b c v ts = Except.error "OverflowError: ts_event") ∧
    (∀ st a b c v r ts, ¬(-(2 ^ 63) ≤ ts ∧ ts < 2 ^ 63) →
      generate_order_modify_rejected st a b c v r ts =
        Except.error "OverflowError: ts_event") ∧
    (∀ st a b c v r ts, ¬(-(2 ^ 63) ≤ ts ∧ ts < 2 ^ 63) →
      generate_order_cancel_rejected st a b c v r ts =
        Except.error "OverflowError: ts_event") ∧
    (∀ st a b c v q p tp ts m, ¬(-(2 ^ 63) ≤ ts ∧ ts < 2 ^ 63) →
      generate_order_updated st a b c v q p tp ts m =
        Except.error "OverflowError: ts_event") ∧
    (∀ st a b c v ts, ¬(-(2 ^ 63) ≤ ts ∧ ts < 2 ^ 63) →
      generate_order_canceled st a b c v ts = Except.error "OverflowError: ts_event") ∧
    (∀ st a b c v ts, ¬(-(2 ^ 63) ≤ ts ∧ ts < 2 ^ 63) →
      generate_order_triggered st a b c v ts = Except.error "OverflowError: ts_event") ∧
    (∀ st a b c v ts, ¬(-(2 ^ 63) ≤ ts ∧ ts < 2 ^ 63) →
      generate_order_expired st a b c v ts = Except.error "OverflowError: ts_event") ∧
    (∀ st a b c v vp tid os ot lq lp qc cm ls ts, ¬(-(2 ^ 63) ≤ ts ∧ ts < 2 ^ 63) →
      generate_order_filled st a b c v vp tid os ot lq lp qc cm ls ts =
        Except.error "OverflowError: ts_event") ∧
    (∀ e : TimeEventModel, (0 : Int) ≤ (e.ts_event : Int)) := by
  refine ⟨?_, ?_, ?_, ?_, ?_, ?_, ?_, ?_, ?_, ?_, ?_, ?_, ?_, ?_⟩
  · intro st a b c ts
    constructor
    · intro h
      simp only [generate_order_submitted] at h
      split at h
      · rename_i hc
        simpa only [int64Ok, Bool.and_eq_true, decide_eq_true_eq] using hc
      · simp [Except.isOk, Except.toBool] at h
    · intro hrange
      have hts : int64Ok ts = true := by
        simp only [int64Ok, Bool.and_eq_true, decide_eq_true_eq]
        exact hrange
      simp [generate_order_submitted, hts, Except.isOk, Except.toBool]
  all_goals
    first
    | (intro st b m r ts i h
       have hts : ¬(int64Ok ts = true) := by
         simpa only [int64Ok, Bool.and_eq_true, decide_eq_true_eq] using h
       simp only [generate_account_state]
       rw [if_neg hts])
    | (intro e
       exact Int.natCast_nonneg e.ts_event)
    | (intro st a b c ts h
       have hts : ¬(int64Ok ts = true) := by
         simpa only [int64Ok, Bool.and_eq_true, decide_eq_true_eq] using h
       simp only [generate_order_rejected, generate_order_accepted,
         generate_order_pending_update, generate_order_pending_cancel,
         generate_order_canceled, generate_order_triggered, generate_order_expired]
       rw [if_neg hts])
    | (intro st a b c v ts h
       have hts : ¬(int64Ok ts = true) := by
         simpa only [int64Ok, Bool.and_eq_true, decide_eq_true_eq] using h
       simp only [generate_order_rejected, generate_order_accepted,
         generate_order_pending_update, generate_order_pending_cancel,
         generate_order_canceled, generate_order_triggered, generate_order_expired]
       rw [if_neg hts])
    | (intro st a b c v r ts h
       have hts : ¬(int64Ok ts = true) := by
         simpa only [int64Ok, Bool.and_eq_true, decide_eq_true_eq] using h
       simp only [generate_order_modify_rejected, generate_order_cancel_rejected]
       rw [if_neg hts])
    | (intro st a b c v q p tp ts m h
       have hts : ¬(int64Ok ts = true) := by
         simpa only [int64Ok, Bool.and_eq_true, decide_eq_true_eq] using h
       simp only [generate_order_updated]
       rw [if_neg hts])
    | (intro st a b c v vp tid os ot lq lp qc cm ls ts h
       have hts : ¬(int64Ok ts = true) := by
         simpa only [int64Ok, Bool.and_eq_true, decide_eq_true_eq] using h
       simp only [generate_order_filled]
       rw [if_neg hts])

/-- Witness for C9 (amended): `-1` is in the accepted range of
`generate_order_submitted`, `2^63` is rejected by `generate_account_state`
and `generate_order_filled`, and a `TimeEvent` timestamp is non-negative. -/
theorem C9_timestamp_ranges_witness :
    (generate_order_submitted sampleState (StrategyId.mk "S-001")
      (InstrumentId.mk "AUD/USD.SIM") (ClientOrderId.mk "O-1") (-1)).isOk = true ∧
    generate_account_state sampleState [] [] true (2 ^ 63) [] =
      Except.error "OverflowError: ts_event" ∧
    generate_order_filled sampleState (StrategyId.mk "S-001")
      (InstrumentId.mk "AUD/USD.SIM") (ClientOrderId.mk "O-1") (VenueOrderId.mk "V-001")
      none (TradeId.mk "T-001") OrderSide.BUY OrderType.LIMIT (Quantity.mk 100000)
      (Price.mk 100) (Currency.mk "USD") (Money.mk 2 (Currency.mk "USD"))
      LiquiditySide.TAKER (2 ^ 63) = Except.error "OverflowError: ts_event" ∧
    (0 : Int) ≤ ((TimeEventModel.mk "T" 3).ts_event : Int) := by
  refine ⟨?_, ?_, ?_, ?_⟩
  · exact (C9_timestamp_ranges.1 sampleState (StrategyId.mk "S-001")
      (InstrumentId.mk "AUD/USD.SIM") (ClientOrderId.mk "O-1") (-1)).mpr (by decide)
  · exact C9_timestamp_ranges.2.1 sampleState [] [] true (2 ^ 63) [] (by decide)
  · exact C9_timestamp_ranges.2.2.2.2.2.2.2.2.2.2.2.2.1 sampleState (StrategyId.mk "S-001")
      (InstrumentId.mk "AUD/USD.SIM") (ClientOrderId.mk "O-1") (VenueOrderId.mk "V-001")
      none (TradeId.mk "T-001") OrderSide.BUY OrderType.LIMIT (Quantity.mk 100000)
      (Price.mk 100) (Currency.mk "USD") (Money.mk 2 (Currency.mk "USD"))
      LiquiditySide.TAKER (2 ^ 63) (by decide)
  · exact C9_timestamp_ranges.2.2.2.2.2.2.2.2.2.2.2.2.2 (TimeEventModel.mk "T" 3)

/-- **C10.** After construction `account_id` is `None` and `is_connected`
is `False`; every event-generation method can be invoked before an account
id has been assigned — no generator checks that `account_id` is set, each
simply copies the client's current `account_id` (hence `None` on a fresh
client) into the emitted event. -/
theorem C10_generators_before_account_id :
    (∀ ci v ot at2 bc mt ca cn, ot ≠ OMSType.NONE →
      (ExecutionClient_init ci v ot at2 bc mt ca cn).map
        (fun st => (st.account_id, st.is_connected)) = Except.ok (none, false)) ∧
    (∀ st b m r ts i, int64Ok ts = true →
      (generate_account_state st b m r ts i).map
        (fun st2 => st2.sent_log.map (fun s => s.msg.accountIdOf)) =
        Except.ok (st.sent_log.map (fun s => s.msg.accountIdOf) ++ [some st.account_id])) ∧
    (∀ st a b c ts, int64Ok ts = true →
      (generate_order_submitted st a b c ts).map
        (fun st2 => st2.sent_log.map (fun s => s.msg.accountIdOf)) =
        Except.ok (st.sent_log.map (fun s => s.msg.accountIdOf) ++ [some st.account_id])) ∧
    (∀ st a b c r ts, int64Ok ts = true →
      (generate_order_rejected st a b c r ts).map
        (fun st2 => st2.sent_log.map (fun s => s.msg.accountIdOf)) =
        Except.ok (st.sent_log.map (fun s => s.msg.accountIdOf) ++ [some st.account_id])) ∧
    (∀ st a b c v ts, int64Ok ts = true →
      (generate_order_accepted st a b c v ts).map
        (fun st2 => st2.sent_log.map (fun s => s.msg.accountIdOf)) =
        Except.ok (st.sent_log.map (fun s => s.msg.accountIdOf) ++ [some st.account_id])) ∧
    (∀ st a b c v ts, int64Ok ts = true →
      (generate_order_pending_update st a b c v ts).map
        (fun st2 => st2.sent_log.map (fun s => s.msg.accountIdOf)) =
        Except.ok (st.sent_log.map (fun s => s.msg.accountIdOf) ++ [some st.account_id])) ∧
    (∀ st a b c v ts, int64Ok ts = true →
      (generate_order_pending_cancel st a b c v ts).map
        (fun st2 => st2.sent_log.map (fun s => s.msg.accountIdOf)) =
        Except.ok (st.sent_log.map (fun s => s.msg.accountIdOf) ++ [some st.account_id])) ∧
    (∀ st a b c v r ts, int64Ok ts = true →
      (generate_order_modify_rejected st a b c v r ts).map
        (fun st2 => st2.sent_log.map (fun s => s.msg.accountIdOf)) =
        Except.ok (st.sent_log.map (fun s => s.msg.accountIdOf) ++ [some st.account_id])) ∧
    (∀ st a b c v r ts, int64Ok ts = true →
      (generate_order_cancel_rejected st a b c v r ts).map
        (fun st2 => st2.sent_log.map (fun s => s.msg.accountIdOf)) =
        Except.ok (st.sent_log.map (fun s => s.msg.accountIdOf) ++ [some st.account_id])) ∧
    (∀ st a b c v q p tp ts m, int64Ok ts = true →
      (m = true ∨ st.cache c = some v) →
      (generate_order_updated st a b c v q p tp ts m).map
        (fun st2 => st2.sent_log.map (fun s => s.msg.accountIdOf)) =
        Except.ok (st.sent_log.map (fun s => s.msg.accountIdOf) ++ [some st.account_id])) ∧
    (∀ st a b c v ts, int64Ok ts = true →
      (generate_order_canceled st a b c v ts).map
        (fun st2 => st2.sent_log.map (fun s => s.msg.accountIdOf)) =
        Except.ok (st.sent_log.map (fun s => s.msg.accountIdOf) ++ [some st.account_id])) ∧
    (∀ st a b c v ts, int64Ok ts = true →
      (generate_order_triggered st a b c v ts).map
        (fun st2 => st2.sent_log.map (fun s => s.msg.accountIdOf)) =
        Except.ok (st.sent_log.map (fun s => s.msg.accountIdOf) ++ [some st.account_id])) ∧
    (∀ st a b c v ts, int64Ok ts = true →
      (generate_order_expired st a b c v ts).map
        (fun st2 => st2.sent_log.map (fun s => s.msg.accountIdOf)) =
        Except.ok (st.sent_log.map (fun s => s.msg.accountIdOf) ++ [some st.account_id])) ∧
    (∀ st a b c v vp tid os ot lq lp qc cm ls ts, int64Ok ts = true →
      (generate_order_filled st a b c v vp tid os ot lq lp qc cm ls ts).map
        (fun st2 => st2.sent_log.map (fun s => s.msg.accountIdOf)) =
        Except.ok (st.sent_log.map (fun s => s.msg.accountIdOf) ++ [some st.account_id])) := by
  refine ⟨?_, ?_, ?_, ?_, ?_, ?_, ?_, ?_, ?_, ?_, ?_, ?_, ?_, ?_⟩
  · intro ci v ot at2 bc mt ca cn h
    simp only [ExecutionClient_init]
    rw [if_neg h]
    rfl
  · intro st b m r ts i hts
    simp only [generate_account_state]
    rw [if_pos hts]
    simp [Except.map, send_account_state, BusMsg.accountIdOf]
  · intro st a b c ts hts
    simp only [generate_order_submitted]
    rw [if_pos hts]
    simp [Except.map, send_order_event, BusMsg.accountIdOf, OrderEventModel.fields]
  · intro st a b c r ts hts
    simp only [generate_order_rejected]
    rw [if_pos hts]
    simp [Except.map, send_order_event, BusMsg.accountIdOf, OrderEventModel.fields]
  · intro st a b c v ts hts
    simp only [generate_order_accepted]
    rw [if_pos hts]
    simp [Except.map, send_order_event, BusMsg.accountIdOf, OrderEventModel.fields]
  · intro st a b c v ts hts
    simp only [generate_order_pending_update]
    rw [if_pos hts]
    simp [Except.map, send_order_event, BusMsg.accountIdOf, OrderEventModel.fields]
  · intro st a b c v ts hts
    simp only [generate_order_pending_cancel]
    rw [if_pos hts]
    simp [Except.map, send_order_event, BusMsg.accountIdOf, OrderEventModel.fields]
  · intro st a b c v r ts hts
    simp only [generate_order_modify_rejected]
    rw [if_pos hts]
    simp [Except.map, send_order_event, BusMsg.accountIdOf, OrderEventModel.fields]
  · intro st a b c v r ts hts
    simp only [generate_order_cancel_rejected]
    rw [if_pos hts]
    simp [Except.map, send_order_event, BusMsg.accountIdOf, OrderEventModel.fields]
  · intro st a b c v q p tp ts m hts hc
    simp only [generate_order_updated]
    rw [if_pos hts, if_pos hc]
    simp [Except.map, send_order_event, BusMsg.accountIdOf, OrderEventModel.fields]
  · intro st a b c v ts hts
    simp only [generate_order_canceled]
    rw [if_pos hts]
    simp [Except.map, send_order_event, BusMsg.accountIdOf, OrderEventModel.fields]
  · intro st a b c v ts hts
    simp only [generate_order_triggered]
    rw [if_pos hts]
    simp [Except.map, send_order_event, BusMsg.accountIdOf, OrderEventModel.fields]
  · intro st a b c v ts hts
    simp only [generate_order_expired]
    rw [if_pos hts]
    simp [Except.map, send_order_event, BusMsg.accountIdOf, OrderEventModel.fields]
  · intro st a b c v vp tid os ot lq lp qc cm ls ts hts
    simp only [generate_order_filled]
    rw [if_pos hts]
    simp [Except.map, send_order_event, BusMsg.accountIdOf, OrderEventModel.fields]

/-- Witness for C10: the freshly constructed sample client has
`account_id = none`, `is_connected = false`, and a submitted event
generated before any account assignment carries `account_id = none`. -/
theorem C10_generators_before_account_id_witness :
    (ExecutionClient_init (ClientId.mk "SIM") none OMSType.HEDGING AccountType.MARGIN none
      (TraderId.mk "TRADER-001") sampleCache 100).map
      (fun st => (st.account_id, st.is_connected)) = Except.ok (none, false) ∧
    (generate_order_submitted sampleState (StrategyId.mk "S-001")
      (InstrumentId.mk "AUD/USD.SIM") (ClientOrderId.mk "O-1") 50).map
      (fun st2 => st2.sent_log.map (fun s => s.msg.accountIdOf)) =
      Except.ok [some none] ∧
    (generate_order_updated sampleState (StrategyId.mk "S-001")
      (InstrumentId.mk "AUD/USD.SIM") (ClientOrderId.mk "O-1") (VenueOrderId.mk "V-001")
      (Quantity.mk 100000) (Price.mk 100) none 50 false).map
      (fun st2 => st2.sent_log.map (fun s => s.msg.accountIdOf)) =
      Except.ok [some none] := by
  refine ⟨?_, ?_, ?_⟩
  · exact C10_generators_before_account_id.1 (ClientId.mk "SIM") none OMSType.HEDGING
      AccountType.MARGIN none (TraderId.mk "TRADER-001") sampleCache 100 (by decide)
  · exact C10_generators_before_account_id.2.2.1 sampleState (StrategyId.mk "S-001")
      (InstrumentId.mk "AUD/USD.SIM") (ClientOrderId.mk "O-1") 50 (by decide)
  · exact C10_generators_before_account_id.2.2.2.2.2.2.2.2.2.1 sampleState
      (StrategyId.mk "S-001") (InstrumentId.mk "AUD/USD.SIM") (ClientOrderId.mk "O-1")
      (VenueOrderId.mk "V-001") (Quantity.mk 100000) (Price.mk 100) none 50 false
      (by decide) (Or.inr (by decide))

end Nautilus
